import Mathlib

/-!
Verification development for the DineCraft voxel world engine.

The definitions below are a shallow embedding of the JavaScript sources:
`src/BlockRegistry.js`, `src/Chunk.js`, `src/World.js`, `src/ChunkMesher.js`
and the height-map revision of `src/TerrainGenerator.js`.  JavaScript numbers
holding integers are modelled as `Int` (or `Nat` for loop counters and block
ids), fractional vertex data as `Rat`, the chunk's `Uint8Array` as a function
`Nat → Nat`, the world's `Map` keyed by the string "x,y,z" as a function from
the integer triple (the string key is injective on integer triples), and the
world's `Set` of dirty chunk objects as a `Finset` of chunk coordinate keys
(the directory holds at most one chunk object per key).  Imperative loops are
modelled as left folds in source order, and in-place writes as functional
updates.
-/

/-! ## Chunk dimension constants (Chunk.js, ChunkMesher.js) -/

def CHUNK_WIDTH : Nat := 16
def CHUNK_HEIGHT : Nat := 256
def CHUNK_DEPTH : Nat := 16
def CHUNK_VOLUME : Nat := CHUNK_WIDTH * CHUNK_HEIGHT * CHUNK_DEPTH

/-! ## BlockRegistry.js -/

/-- One of the six face names used by the mesher
(`FACE_NAMES = ['east', 'west', 'top', 'bottom', 'south', 'north']`). -/
inductive FaceName where
  | east
  | west
  | top
  | bottom
  | south
  | north
deriving DecidableEq, Repr

/-- The `textures` object of a block descriptor: each of the keys
`top`, `bottom`, `side`, `all` may be present or absent. -/
structure BlockTextures where
  top : Option (Rat × Rat)
  bottom : Option (Rat × Rat)
  side : Option (Rat × Rat)
  all : Option (Rat × Rat)

/-- A block descriptor from the `BLOCKS` table. -/
structure Block where
  id : Nat
  name : String
  solid : Bool
  textures : Option BlockTextures

def airBlock : Block := ⟨0, "air", false, none⟩

def grassBlock : Block :=
  ⟨1, "grass", true, some ⟨some (0, 3/4), some (1/2, 3/4), some (1/4, 3/4), none⟩⟩

def dirtBlock : Block :=
  ⟨2, "dirt", true, some ⟨none, none, none, some (1/2, 3/4)⟩⟩

def stoneBlock : Block :=
  ⟨3, "stone", true, some ⟨none, none, none, some (3/4, 3/4)⟩⟩

def woodBlock : Block :=
  ⟨4, "wood", true, some ⟨some (0, 1/2), some (0, 1/2), some (1/4, 1/2), none⟩⟩

/-- The `BLOCKS` table, keyed by block id; absent keys are `none`
(JavaScript `BLOCKS[id]` is `undefined`). -/
def BLOCKS : Nat → Option Block
  | 0 => some airBlock
  | 1 => some grassBlock
  | 2 => some dirtBlock
  | 3 => some stoneBlock
  | 4 => some woodBlock
  | _ => none

/-- `getBlockById(id)`: `BLOCKS[id] || BLOCKS[0]`. -/
def getBlockById (id : Nat) : Block :=
  (BLOCKS id).getD airBlock

def TILE_UV_WIDTH : Rat := 1/4
def TILE_UV_HEIGHT : Rat := 1/4

/-- Property access `block.textures[faceName]` on the registry's texture
objects: only the keys `top` and `bottom` ever name a face directly. -/
def texturesAccess (t : BlockTextures) : FaceName → Option (Rat × Rat)
  | FaceName.top => t.top
  | FaceName.bottom => t.bottom
  | _ => none

/-- `getBlockTextureUV(blockId, faceName)`: fallback chain
`textures[faceName] || (lateral ? textures.side : null) || textures.all`. -/
def getBlockTextureUV (blockId : Nat) (faceName : FaceName) : Option (Rat × Rat) :=
  let block := getBlockById blockId
  match block.textures with
  | none => none
  | some t =>
      ((texturesAccess t faceName).orElse (fun _ =>
        if faceName ≠ FaceName.top ∧ faceName ≠ FaceName.bottom then t.side else none)).orElse
        (fun _ => t.all)

/-- `generateFaceUVs(u, v)`: the four tile corners in order
bottom-left, bottom-right, top-left, top-right. -/
def generateFaceUVs (u v : Rat) : List Rat :=
  [u, v,
   u + TILE_UV_WIDTH, v,
   u, v + TILE_UV_HEIGHT,
   u + TILE_UV_WIDTH, v + TILE_UV_HEIGHT]

/-! ## Coordinate translation helpers (World.js, three.js MathUtils) -/

/-- `Math.floor(a / b)` on JavaScript numbers, for integer inputs: the exact
rational quotient, floored.  (For the divisors 16 and 256 used by the engine
the double-precision quotient is exact, so this is the faithful model.) -/
def mathFloorDiv (a b : Int) : Int := ⌊(a : ℚ) / (b : ℚ)⌋

/-- `THREE.MathUtils.euclideanModulo(n, m) = ((n % m) + m) % m`, where `%`
is the JavaScript truncating remainder (`Int.tmod`). -/
def euclideanModulo (n m : Int) : Int := (Int.tmod n m + m).tmod m

/-! ## Chunk.js -/

/-- A chunk object: its world-space origin `position` and the dense block
array `blocks` (`Uint8Array` of length `CHUNK_VOLUME`, Y-major order). -/
structure Chunk where
  position : Int × Int × Int
  blocks : Nat → Nat

/-- `Chunk._getIndex(x, y, z)` on the raw (possibly negative) coordinates. -/
def Chunk._getIndex (x y z : Int) : Int :=
  y * ((CHUNK_WIDTH : Int) * (CHUNK_DEPTH : Int)) + z * (CHUNK_WIDTH : Int) + x

/-- `Chunk._getIndex` as used with the non-negative loop counters of
`generateTerrain`, the world's population loop and the mesher. -/
def Chunk.getIndexNat (x y z : Nat) : Nat :=
  y * (CHUNK_WIDTH * CHUNK_DEPTH) + z * CHUNK_WIDTH + x

/-- `Chunk._isValidCoordinate(x, y, z)`. -/
def Chunk._isValidCoordinate (x y z : Int) : Bool :=
  decide (0 ≤ x) && decide (x < (CHUNK_WIDTH : Int)) &&
  decide (0 ≤ y) && decide (y < (CHUNK_HEIGHT : Int)) &&
  decide (0 ≤ z) && decide (z < (CHUNK_DEPTH : Int))

/-- `Chunk.getBlock(x, y, z)`: bounds-checked read, air when out of range. -/
def Chunk.getBlock (c : Chunk) (x y z : Int) : Nat :=
  if Chunk._isValidCoordinate x y z then
    c.blocks (Chunk._getIndex x y z).toNat
  else
    airBlock.id

/-- `Chunk.setBlock(x, y, z, blockId)`: returns whether the block data was
changed, together with the (possibly updated) chunk object. -/
def Chunk.setBlock (c : Chunk) (x y z : Int) (blockId : Nat) : Bool × Chunk :=
  if Chunk._isValidCoordinate x y z then
    let index := (Chunk._getIndex x y z).toNat
    let oldBlockId := c.blocks index
    if oldBlockId ≠ blockId then
      (true, { c with blocks := Function.update c.blocks index blockId })
    else
      (false, c)
  else
    (false, c)

/-- `Chunk.generateTerrain()`: the flat-terrain pass run by the `Chunk`
constructor (grass at world Y=0, dirt at Y=-1,-2, stone below, air above),
writing every voxel of the given initial array. -/
def Chunk.generateTerrain (position : Int × Int × Int) (blocks0 : Nat → Nat) : Nat → Nat :=
  (List.range CHUNK_WIDTH).foldl (fun b (x : Nat) =>
    (List.range CHUNK_DEPTH).foldl (fun b (z : Nat) =>
      (List.range CHUNK_HEIGHT).foldl (fun b (y : Nat) =>
        let worldY := position.2.1 + (y : Int)
        let blockId :=
          if worldY = 0 then grassBlock.id
          else if worldY = -1 ∨ worldY = -2 then dirtBlock.id
          else if worldY < -2 then stoneBlock.id
          else airBlock.id
        Function.update b (Chunk.getIndexNat x y z) blockId) b) b) blocks0

/-- The `Chunk` constructor: stores the position and runs `generateTerrain`
over the zero-initialised `Uint8Array`. -/
def Chunk.new (position : Int × Int × Int) : Chunk :=
  { position := position, blocks := Chunk.generateTerrain position (fun _ => 0) }

/-! ## World.js -/

/-- The world: the chunk directory (`Map` keyed by "x,y,z"), the dirty set,
and the terrain generator's block function captured at construction. -/
structure WorldState where
  chunks : Int × Int × Int → Option Chunk
  dirtyChunks : Finset (Int × Int × Int)
  gen : Int → Int → Int → Nat

/-- `World.getChunk(chunkX, chunkY, chunkZ)`. -/
def World.getChunk (s : WorldState) (chunkX chunkY chunkZ : Int) : Option Chunk :=
  s.chunks (chunkX, chunkY, chunkZ)

/-- `World.getOrCreateChunk(chunkX, chunkY, chunkZ)`: returns the existing
chunk, or allocates one (constructor runs `generateTerrain`), overwrites
every voxel with the terrain generator's value at the corresponding world
coordinate, stores it in the directory and marks it dirty. -/
def World.getOrCreateChunk (s : WorldState) (chunkX chunkY chunkZ : Int) : Chunk × WorldState :=
  match s.chunks (chunkX, chunkY, chunkZ) with
  | some chunk => (chunk, s)
  | none =>
      let chunkPosition : Int × Int × Int :=
        (chunkX * (CHUNK_WIDTH : Int), chunkY * (CHUNK_HEIGHT : Int), chunkZ * (CHUNK_DEPTH : Int))
      let c0 := Chunk.new chunkPosition
      let filledBlocks :=
        (List.range CHUNK_WIDTH).foldl (fun b (x : Nat) =>
          (List.range CHUNK_DEPTH).foldl (fun b (z : Nat) =>
            (List.range CHUNK_HEIGHT).foldl (fun b (y : Nat) =>
              Function.update b (Chunk.getIndexNat x y z)
                (s.gen (chunkPosition.1 + (x : Int)) (chunkPosition.2.1 + (y : Int))
                  (chunkPosition.2.2 + (z : Int)))) b) b)
          c0.blocks
      let chunk : Chunk := { c0 with blocks := filledBlocks }
      (chunk,
        { s with
          chunks := Function.update s.chunks (chunkX, chunkY, chunkZ) (some chunk),
          dirtyChunks := insert (chunkX, chunkY, chunkZ) s.dirtyChunks })

/-- `World.getBlock(worldX, worldY, worldZ)`: coordinate translation plus a
bounds-checked read; air when the addressed chunk is not loaded. -/
def World.getBlock (s : WorldState) (worldX worldY worldZ : Int) : Nat :=
  let chunkX := mathFloorDiv worldX (CHUNK_WIDTH : Int)
  let chunkY := mathFloorDiv worldY (CHUNK_HEIGHT : Int)
  let chunkZ := mathFloorDiv worldZ (CHUNK_DEPTH : Int)
  let localX := euclideanModulo worldX (CHUNK_WIDTH : Int)
  let localY := euclideanModulo worldY (CHUNK_HEIGHT : Int)
  let localZ := euclideanModulo worldZ (CHUNK_DEPTH : Int)
  match World.getChunk s chunkX chunkY chunkZ with
  | some chunk => Chunk.getBlock chunk localX localY localZ
  | none => airBlock.id

/-- The six axis direction offsets checked by `checkAndMarkNeighborsDirty`. -/
def neighborOffsets : List (Int × Int × Int) :=
  [(1, 0, 0), (-1, 0, 0), (0, 1, 0), (0, -1, 0), (0, 0, 1), (0, 0, -1)]

/-- The body of the `for (const offset of neighborOffsets)` loop of
`World.checkAndMarkNeighborsDirty`. -/
def World.markNeighborStep (worldX worldY worldZ chunkX chunkY chunkZ localX localY localZ : Int)
    (s : WorldState) (off : Int × Int × Int) : WorldState :=
  let neighborWorldX := worldX + off.1
  let neighborWorldY := worldY + off.2.1
  let neighborWorldZ := worldZ + off.2.2
  let neighborChunkX := mathFloorDiv neighborWorldX (CHUNK_WIDTH : Int)
  let neighborChunkY := mathFloorDiv neighborWorldY (CHUNK_HEIGHT : Int)
  let neighborChunkZ := mathFloorDiv neighborWorldZ (CHUNK_DEPTH : Int)
  if neighborChunkX ≠ chunkX ∨ neighborChunkY ≠ chunkY ∨ neighborChunkZ ≠ chunkZ then
    let shouldMarkNeighbor : Bool :=
      if off.1 = 1 ∧ localX = (CHUNK_WIDTH : Int) - 1 then true
      else if off.1 = -1 ∧ localX = 0 then true
      else if off.2.1 = 1 ∧ localY = (CHUNK_HEIGHT : Int) - 1 then true
      else if off.2.1 = -1 ∧ localY = 0 then true
      else if off.2.2 = 1 ∧ localZ = (CHUNK_DEPTH : Int) - 1 then true
      else if off.2.2 = -1 ∧ localZ = 0 then true
      else false
    if shouldMarkNeighbor then
      match World.getChunk s neighborChunkX neighborChunkY neighborChunkZ with
      | some _ =>
          { s with
            dirtyChunks := insert (neighborChunkX, neighborChunkY, neighborChunkZ) s.dirtyChunks }
      | none => s
    else s
  else s

/-- `World.checkAndMarkNeighborsDirty(...)`: early return when the changed
block is strictly interior, otherwise the loop over the six offsets. -/
def World.checkAndMarkNeighborsDirty (s : WorldState)
    (worldX worldY worldZ chunkX chunkY chunkZ localX localY localZ : Int) : WorldState :=
  if ¬((localX = 0 ∨ localX = (CHUNK_WIDTH : Int) - 1) ∨
       (localY = 0 ∨ localY = (CHUNK_HEIGHT : Int) - 1) ∨
       (localZ = 0 ∨ localZ = (CHUNK_DEPTH : Int) - 1)) then s
  else
    neighborOffsets.foldl
      (World.markNeighborStep worldX worldY worldZ chunkX chunkY chunkZ localX localY localZ) s

/-- `World.setBlock(worldX, worldY, worldZ, blockId)`: coordinate
translation, delegation to `Chunk.setBlock`, and dirty-marking plus neighbor
propagation only when a real change happened. -/
def World.setBlock (s : WorldState) (worldX worldY worldZ : Int) (blockId : Nat) : WorldState :=
  let chunkX := mathFloorDiv worldX (CHUNK_WIDTH : Int)
  let chunkY := mathFloorDiv worldY (CHUNK_HEIGHT : Int)
  let chunkZ := mathFloorDiv worldZ (CHUNK_DEPTH : Int)
  let localX := euclideanModulo worldX (CHUNK_WIDTH : Int)
  let localY := euclideanModulo worldY (CHUNK_HEIGHT : Int)
  let localZ := euclideanModulo worldZ (CHUNK_DEPTH : Int)
  match World.getChunk s chunkX chunkY chunkZ with
  | some chunk =>
      let r := Chunk.setBlock chunk localX localY localZ blockId
      let s1 : WorldState :=
        { s with chunks := Function.update s.chunks (chunkX, chunkY, chunkZ) (some r.2) }
      if r.1 then
        World.checkAndMarkNeighborsDirty
          { s1 with dirtyChunks := insert (chunkX, chunkY, chunkZ) s1.dirtyChunks }
          worldX worldY worldZ chunkX chunkY chunkZ localX localY localZ
      else s1
  | none => s

/-! ## TerrainGenerator.js (height-map revision) -/

def TerrainGenerator.surfaceScale : Rat := 100
def TerrainGenerator.baseLevel : Rat := 0
def TerrainGenerator.amplitude : Rat := 15
def TerrainGenerator.dirtDepth : Int := 3

/-- `TerrainGenerator.getBlockId(worldX, worldY, worldZ)` of the height-map
revision, with the 2D simplex noise abstracted as a function `noise` of the
two scaled coordinates. -/
def TerrainGenerator.getBlockId (noise : Rat → Rat → Rat) (worldX worldY worldZ : Int) : Nat :=
  let surfaceNoiseValue :=
    noise ((worldX : Rat) / TerrainGenerator.surfaceScale)
      ((worldZ : Rat) / TerrainGenerator.surfaceScale)
  let surfaceY : Int := ⌊TerrainGenerator.baseLevel + surfaceNoiseValue * TerrainGenerator.amplitude⌋
  if worldY > surfaceY then airBlock.id
  else if worldY = surfaceY then grassBlock.id
  else if worldY ≥ surfaceY - TerrainGenerator.dirtDepth then dirtBlock.id
  else stoneBlock.id

/-! ## ChunkMesher.js -/

/-- `CUBE_FACE_VERTICES`: per face, the 12 coordinates of its 4 corners
(order bottom-left, bottom-right, top-left, top-right), offsets of ±0.5
around the voxel centre.  Face order: east, west, top, bottom, south, north. -/
def CUBE_FACE_VERTICES : List (List Rat) :=
  [[1/2, -1/2, 1/2,  1/2, -1/2, -1/2,  1/2, 1/2, 1/2,  1/2, 1/2, -1/2],
   [-1/2, -1/2, -1/2,  -1/2, -1/2, 1/2,  -1/2, 1/2, -1/2,  -1/2, 1/2, 1/2],
   [-1/2, 1/2, -1/2,  1/2, 1/2, -1/2,  -1/2, 1/2, 1/2,  1/2, 1/2, 1/2],
   [-1/2, -1/2, 1/2,  1/2, -1/2, 1/2,  -1/2, -1/2, -1/2,  1/2, -1/2, -1/2],
   [-1/2, -1/2, 1/2,  1/2, -1/2, 1/2,  -1/2, 1/2, 1/2,  1/2, 1/2, 1/2],
   [1/2, -1/2, -1/2,  -1/2, -1/2, -1/2,  1/2, 1/2, -1/2,  -1/2, 1/2, -1/2]]

/-- `CUBE_FACE_NORMALS`: one constant normal per face. -/
def CUBE_FACE_NORMALS : List (List Rat) :=
  [[1, 0, 0], [-1, 0, 0], [0, 1, 0], [0, -1, 0], [0, 0, 1], [0, 0, -1]]

/-- `INDICES_CW = [0, 2, 1, 1, 2, 3]`, used for the top and bottom faces. -/
def INDICES_CW : List Nat := [0, 2, 1, 1, 2, 3]

/-- `INDICES_CCW = [0, 1, 2, 1, 3, 2]`, used for the four lateral faces. -/
def INDICES_CCW : List Nat := [0, 1, 2, 1, 3, 2]

/-- `FACE_NAMES = ['east', 'west', 'top', 'bottom', 'south', 'north']`. -/
def FACE_NAMES : List FaceName :=
  [FaceName.east, FaceName.west, FaceName.top, FaceName.bottom, FaceName.south, FaceName.north]

/-- The four parallel geometry buffers built by `ChunkMesher.generate`,
together with the running `vertexIndex` counter. -/
structure GeomData where
  positions : List Rat
  normals : List Rat
  uvs : List Rat
  indices : List Nat
  vertexIndex : Nat

def GeomData.empty : GeomData := ⟨[], [], [], [], 0⟩

/-- `ChunkMesher._getIndex(x, y, z)`: Y-major flat index. -/
def ChunkMesher._getIndex (x y z : Nat) : Nat :=
  y * (CHUNK_WIDTH * CHUNK_DEPTH) + z * CHUNK_WIDTH + x

/-- The `for (let i = 0; i < 4; i++)` loop of `ChunkMesher.generate`: pushes
the 4 corner positions, the replicated face normal, and the 4 UV pairs. -/
def ChunkMesher.pushFaceVertexData (faceVertices faceUVs : List Rat) (faceIndex x y z : Nat)
    (s : GeomData) : GeomData :=
  (List.range 4).foldl (fun st (i : Nat) =>
    { st with
      positions := st.positions ++
        [faceVertices.getD (i * 3 + 0) 0 + (x : Rat) + 1/2,
         faceVertices.getD (i * 3 + 1) 0 + (y : Rat) + 1/2,
         faceVertices.getD (i * 3 + 2) 0 + (z : Rat) + 1/2],
      normals := st.normals ++
        [(CUBE_FACE_NORMALS.getD faceIndex []).getD 0 0,
         (CUBE_FACE_NORMALS.getD faceIndex []).getD 1 0,
         (CUBE_FACE_NORMALS.getD faceIndex []).getD 2 0],
      uvs := st.uvs ++ [faceUVs.getD (i * 2) 0, faceUVs.getD (i * 2 + 1) 0] }) s

/-- The body of the face loop of `ChunkMesher.generate` once the neighbor is
known to be non-solid: resolve UVs (skipping the face if missing), push the
4 vertices, then push the 6 triangle indices offset by `vertexIndex` and
advance `vertexIndex` by 4. -/
def ChunkMesher.emitFace (blockId x y z faceIndex : Nat) (s : GeomData) : GeomData :=
  let faceVertices := CUBE_FACE_VERTICES.getD faceIndex []
  let faceName := FACE_NAMES.getD faceIndex FaceName.east
  match getBlockTextureUV blockId faceName with
  | none => s
  | some uvData =>
      let faceUVs := generateFaceUVs uvData.1 uvData.2
      let s1 := ChunkMesher.pushFaceVertexData faceVertices faceUVs faceIndex x y z s
      let faceIndices := if faceIndex = 2 ∨ faceIndex = 3 then INDICES_CW else INDICES_CCW
      { s1 with
        indices := s1.indices ++ faceIndices.map (fun i => s1.vertexIndex + i),
        vertexIndex := s1.vertexIndex + 4 }

/-- The body of the voxel loop of `ChunkMesher.generate`: skip non-solid
voxels, query the six neighbors through `getBlockFn`, and emit a face for
every non-solid neighbor. -/
def ChunkMesher.processVoxel (chunkData : Nat → Nat) (chunkPosition : Int × Int × Int)
    (getBlockFn : Int → Int → Int → Nat) (s : GeomData) (x y z : Nat) : GeomData :=
  let blockIndex := ChunkMesher._getIndex x y z
  let blockId := chunkData blockIndex
  let block := getBlockById blockId
  if !block.solid then s
  else
    let worldX := chunkPosition.1 + (x : Int)
    let worldY := chunkPosition.2.1 + (y : Int)
    let worldZ := chunkPosition.2.2 + (z : Int)
    let neighbors : List Nat :=
      [getBlockFn (worldX + 1) worldY worldZ,
       getBlockFn (worldX - 1) worldY worldZ,
       getBlockFn worldX (worldY + 1) worldZ,
       getBlockFn worldX (worldY - 1) worldZ,
       getBlockFn worldX worldY (worldZ + 1),
       getBlockFn worldX worldY (worldZ - 1)]
    (List.range 6).foldl (fun s (faceIndex : Nat) =>
      let neighborId := neighbors.getD faceIndex 0
      let neighborBlock := getBlockById neighborId
      if !neighborBlock.solid then ChunkMesher.emitFace blockId x y z faceIndex s
      else s) s

/-- `ChunkMesher.generate(chunkData, chunkPosition, getBlockFn)`: the triple
voxel loop (outer Y, then Z, then X) over the whole chunk. -/
def ChunkMesher.generate (chunkData : Nat → Nat) (chunkPosition : Int × Int × Int)
    (getBlockFn : Int → Int → Int → Nat) : GeomData :=
  (List.range CHUNK_HEIGHT).foldl (fun s (y : Nat) =>
    (List.range CHUNK_DEPTH).foldl (fun s (z : Nat) =>
      (List.range CHUNK_WIDTH).foldl (fun s (x : Nat) =>
        ChunkMesher.processVoxel chunkData chunkPosition getBlockFn s x y z) s) s)
    GeomData.empty

def w9 : WorldState := { chunks := fun _ => none, dirtyChunks := ∅, gen := fun _ _ _ => 0 }

def c8chunk : Chunk := { position := (0, 0, 0), blocks := fun _ => 7 }

/-- Mutual consistency of the four geometry buffers together with the
running vertex counter (the loop invariant of `ChunkMesher.generate`). -/
def GeomData.wellFormed (g : GeomData) : Prop :=
  g.positions.length = 3 * g.vertexIndex ∧
  g.normals.length = 3 * g.vertexIndex ∧
  g.uvs.length = 2 * g.vertexIndex ∧
  g.vertexIndex % 4 = 0 ∧
  2 * g.indices.length = 3 * g.vertexIndex ∧
  ∀ i ∈ g.indices, i < g.vertexIndex

/-! ## Concrete meshing scenarios (mirroring ChunkMesher.test.js) -/

/-- Chunk data: a single grass block at local (1,1,1), air elsewhere. -/
def singleGrassData : Nat → Nat := fun i =>
  if i = ChunkMesher._getIndex 1 1 1 then grassBlock.id else airBlock.id

/-- Chunk data: grass at (1,1,1) and (2,1,1), air elsewhere. -/
def twoGrassData : Nat → Nat := fun i =>
  if i = ChunkMesher._getIndex 1 1 1 ∨ i = ChunkMesher._getIndex 2 1 1 then grassBlock.id
  else airBlock.id

/-- Chunk data: a single stone block at local (1,1,1), air elsewhere. -/
def centerStoneData : Nat → Nat := fun i =>
  if i = ChunkMesher._getIndex 1 1 1 then stoneBlock.id else airBlock.id

/-- The test's `createMockGetBlock`: inside the chunk bounds read the data
array, outside resolve to air. -/
def mockGetBlock (chunkData : Nat → Nat) : Int → Int → Int → Nat :=
  fun worldX worldY worldZ =>
    if 0 ≤ worldX ∧ worldX < 16 ∧ 0 ≤ worldY ∧ worldY < 256 ∧ 0 ≤ worldZ ∧ worldZ < 16 then
      chunkData (ChunkMesher._getIndex worldX.toNat worldY.toNat worldZ.toNat)
    else airBlock.id

/-- A lookup that resolves every out-of-chunk coordinate to air and every
in-chunk coordinate to solid stone (so the 6 neighbors of (1,1,1) are all
solid). -/
def surroundedLookup : Int → Int → Int → Nat :=
  fun worldX worldY worldZ =>
    if 0 ≤ worldX ∧ worldX < 16 ∧ 0 ≤ worldY ∧ worldY < 256 ∧ 0 ≤ worldZ ∧ worldZ < 16 then
      stoneBlock.id
    else airBlock.id

/-- A lookup that resolves every out-of-chunk coordinate to air, reports air
just above (1,1,1) and solid grass at every other in-chunk coordinate (so
(1,1,1) has exactly one non-solid neighbor, on its top face). -/
def topAirLookup : Int → Int → Int → Nat :=
  fun worldX worldY worldZ =>
    if 0 ≤ worldX ∧ worldX < 16 ∧ 0 ≤ worldY ∧ worldY < 256 ∧ 0 ≤ worldZ ∧ worldZ < 16 then
      (if worldX = 1 ∧ worldY = 2 ∧ worldZ = 1 then airBlock.id else grassBlock.id)
    else airBlock.id

def c6chunk : Chunk := { position := (0, 0, 0), blocks := fun _ => 0 }

def w6 : WorldState :=
  { chunks := fun k => if k = ((0 : Int), (0 : Int), (0 : Int)) then some c6chunk else none,
    dirtyChunks := ∅,
    gen := fun _ _ _ => 3 }

/-- The claim's condition for a neighbor chunk to be marked dirty by an edit
at world coordinate (wx, wy, wz): in one of the six axis directions, the
local coordinate equals 0 or dimension-1 toward that direction, the adjacent
world coordinate belongs to a different chunk coordinate, and that neighbor
chunk is loaded; `k` is that neighbor's chunk coordinate. -/
def specNeighborDirty (s : WorldState) (wx wy wz : Int) (k : Int × Int × Int) : Prop :=
  (euclideanModulo wx 16 = 15 ∧
    (mathFloorDiv (wx + 1) 16, mathFloorDiv wy 256, mathFloorDiv wz 16) ≠
      (mathFloorDiv wx 16, mathFloorDiv wy 256, mathFloorDiv wz 16) ∧
    (s.chunks (mathFloorDiv (wx + 1) 16, mathFloorDiv wy 256, mathFloorDiv wz 16)).isSome =
      true ∧
    k = (mathFloorDiv (wx + 1) 16, mathFloorDiv wy 256, mathFloorDiv wz 16)) ∨
  (euclideanModulo wx 16 = 0 ∧
    (mathFloorDiv (wx - 1) 16, mathFloorDiv wy 256, mathFloorDiv wz 16) ≠
      (mathFloorDiv wx 16, mathFloorDiv wy 256, mathFloorDiv wz 16) ∧
    (s.chunks (mathFloorDiv (wx - 1) 16, mathFloorDiv wy 256, mathFloorDiv wz 16)).isSome =
      true ∧
    k = (mathFloorDiv (wx - 1) 16, mathFloorDiv wy 256, mathFloorDiv wz 16)) ∨
  (euclideanModulo wy 256 = 255 ∧
    (mathFloorDiv wx 16, mathFloorDiv (wy + 1) 256, mathFloorDiv wz 16) ≠
      (mathFloorDiv wx 16, mathFloorDiv wy 256, mathFloorDiv wz 16) ∧
    (s.chunks (mathFloorDiv wx 16, mathFloorDiv (wy + 1) 256, mathFloorDiv wz 16)).isSome =
      true ∧
    k = (mathFloorDiv wx 16, mathFloorDiv (wy + 1) 256, mathFloorDiv wz 16)) ∨
  (euclideanModulo wy 256 = 0 ∧
    (mathFloorDiv wx 16, mathFloorDiv (wy - 1) 256, mathFloorDiv wz 16) ≠
      (mathFloorDiv wx 16, mathFloorDiv wy 256, mathFloorDiv wz 16) ∧
    (s.chunks (mathFloorDiv wx 16, mathFloorDiv (wy - 1) 256, mathFloorDiv wz 16)).isSome =
      true ∧
    k = (mathFloorDiv wx 16, mathFloorDiv (wy - 1) 256, mathFloorDiv wz 16)) ∨
  (euclideanModulo wz 16 = 15 ∧
    (mathFloorDiv wx 16, mathFloorDiv wy 256, mathFloorDiv (wz + 1) 16) ≠
      (mathFloorDiv wx 16, mathFloorDiv wy 256, mathFloorDiv wz 16) ∧
    (s.chunks (mathFloorDiv wx 16, mathFloorDiv wy 256, mathFloorDiv (wz + 1) 16)).isSome =
      true ∧
    k = (mathFloorDiv wx 16, mathFloorDiv wy 256, mathFloorDiv (wz + 1) 16)) ∨
  (euclideanModulo wz 16 = 0 ∧
    (mathFloorDiv wx 16, mathFloorDiv wy 256, mathFloorDiv (wz - 1) 16) ≠
      (mathFloorDiv wx 16, mathFloorDiv wy 256, mathFloorDiv wz 16) ∧
    (s.chunks (mathFloorDiv wx 16, mathFloorDiv wy 256, mathFloorDiv (wz - 1) 16)).isSome =
      true ∧
    k = (mathFloorDiv wx 16, mathFloorDiv wy 256, mathFloorDiv (wz - 1) 16))

def c2chunk : Chunk := { position := (0, 0, 0), blocks := fun _ => 0 }

def w2 : WorldState :=
  { chunks := fun k => if k = ((0 : Int), (0 : Int), (0 : Int)) then some c2chunk else none,
    dirtyChunks := ∅,
    gen := fun _ _ _ => 0 }

theorem mathFloorDiv_eq_fdiv (a : Int) (b : Nat) :
    mathFloorDiv a b = Int.fdiv a b := by
  have h := Rat.floor_intCast_div_natCast a b
  have hb' : (0 : Int) ≤ (b : Int) := by exact_mod_cast Nat.zero_le b
  rw [mathFloorDiv, show ((b : Int) : ℚ) = ((b : ℕ) : ℚ) by push_cast; ring, h,
    Int.fdiv_eq_ediv a hb']

theorem neg_tmod (a b : Int) : (-a).tmod b = -(a.tmod b) := by
  rw [Int.tmod_def, Int.tmod_def, Int.neg_tdiv]
  ring

theorem euclideanModulo_eq_emod (n : Int) (m : Nat) (hm : 0 < (m : Int)) :
    euclideanModulo n m = n % m := by
  rw [euclideanModulo]
  have hub : n.tmod m < m := Int.tmod_lt_of_pos n hm
  have hlb : -(m : Int) < n.tmod m := by
    have h2 : (-n).tmod m < m := Int.tmod_lt_of_pos (-n) hm
    have h3 : (-n).tmod m = -(n.tmod m) := neg_tmod n m
    omega
  have hq : n.tmod m = n - m * n.tdiv m := Int.tmod_def n m
  rw [Int.tmod_eq_emod (by omega) (by omega),
    show n.tmod m + m = n + (m : Int) * (1 - n.tdiv m) by rw [hq]; ring,
    Int.add_mul_emod_self_left]

theorem euclideanModulo_sixteen (n : Int) : euclideanModulo n 16 = n % 16 :=
  euclideanModulo_eq_emod n 16 (by norm_num)

theorem euclideanModulo_two56 (n : Int) : euclideanModulo n 256 = n % 256 :=
  euclideanModulo_eq_emod n 256 (by norm_num)

theorem mathFloorDiv_sixteen (a : Int) : mathFloorDiv a 16 = a / 16 := by
  have h := mathFloorDiv_eq_fdiv a 16
  rw [show ((16 : Nat) : Int) = (16 : Int) from rfl] at h
  rw [h, Int.fdiv_eq_ediv a (by norm_num)]

theorem mathFloorDiv_two56 (a : Int) : mathFloorDiv a 256 = a / 256 := by
  have h := mathFloorDiv_eq_fdiv a 256
  rw [show ((256 : Nat) : Int) = (256 : Int) from rfl] at h
  rw [h, Int.fdiv_eq_ediv a (by norm_num)]

/-! ## Generic fold lemmas -/

theorem foldl_invariant {α β : Type _} (f : β → α → β) (P : β → Prop) (l : List α) (init : β)
    (hstep : ∀ s a, a ∈ l → P s → P (f s a)) (hinit : P init) :
    P (l.foldl f init) := by
  induction l generalizing init with
  | nil => exact hinit
  | cons a t ih =>
      exact ih _ (fun s b hb => hstep s b (List.mem_cons_of_mem a hb))
        (hstep init a (List.mem_cons_self a t) hinit)

theorem foldl_eq_id {α β : Type _} (f : β → α → β) (l : List α) (init : β)
    (h : ∀ s a, a ∈ l → f s a = s) : l.foldl f init = init := by
  induction l generalizing init with
  | nil => rfl
  | cons a t ih =>
      rw [List.foldl_cons, h init a (List.mem_cons_self a t)]
      exact ih _ (fun s b hb => h s b (List.mem_cons_of_mem a hb))

theorem foldl_eq_single {α β : Type _} (f : β → α → β) (a₀ : α) (l : List α) :
    a₀ ∈ l → l.Nodup → (∀ s a, a ∈ l → a ≠ a₀ → f s a = s) →
    ∀ init, l.foldl f init = f init a₀ := by
  induction l with
  | nil => intro hmem; cases hmem
  | cons b t ih =>
      intro hmem hnd hid init
      rw [List.foldl_cons]
      by_cases hb : b = a₀
      · have hnot : a₀ ∉ t := hb ▸ (List.nodup_cons.mp hnd).1
        rw [hb]
        exact foldl_eq_id f t _ (fun s a ha =>
          hid s a (List.mem_cons_of_mem _ ha) (fun he => hnot (he ▸ ha)))
      · rw [hid init b (List.mem_cons_self b t) (fun he => hb he)]
        have hmem' : a₀ ∈ t := by
          rcases List.mem_cons.mp hmem with h | h
          · exact absurd h.symm hb
          · exact h
        exact ih hmem' (List.nodup_cons.mp hnd).2
          (fun s a ha hne => hid s a (List.mem_cons_of_mem _ ha) hne) init

theorem foldl_eq_pair {α β : Type _} (f : β → α → β) (a₀ a₁ : α) (la lb lc : List α) (init : β)
    (hid : ∀ s a, a ∈ la ∨ a ∈ lb ∨ a ∈ lc → f s a = s) :
    (la ++ a₀ :: (lb ++ a₁ :: lc)).foldl f init = f (f init a₀) a₁ := by
  rw [List.foldl_append, foldl_eq_id f la init (fun s a ha => hid s a (Or.inl ha)),
    List.foldl_cons, List.foldl_append,
    foldl_eq_id f lb _ (fun s a ha => hid s a (Or.inr (Or.inl ha))),
    List.foldl_cons, foldl_eq_id f lc _ (fun s a ha => hid s a (Or.inr (Or.inr ha)))]

theorem foldl_obs_id {α β γ : Type _} (f : β → α → β) (obs : β → γ) (l : List α) (init : β)
    (h : ∀ s a, a ∈ l → obs (f s a) = obs s) : obs (l.foldl f init) = obs init := by
  induction l generalizing init with
  | nil => rfl
  | cons a t ih =>
      rw [List.foldl_cons]
      rw [ih _ (fun s b hb => h s b (List.mem_cons_of_mem a hb))]
      exact h init a (List.mem_cons_self a t)

theorem foldl_obs_single {α β γ : Type _} (f : β → α → β) (obs : β → γ) (a₀ : α) (v : γ)
    (l : List α) :
    a₀ ∈ l → (∀ s a, a ∈ l → a ≠ a₀ → obs (f s a) = obs s) → (∀ s, obs (f s a₀) = v) →
    ∀ init, obs (l.foldl f init) = v := by
  induction l with
  | nil => intro hmem; cases hmem
  | cons b t ih =>
      intro hmem hpres hset init
      rw [List.foldl_cons]
      by_cases hb : a₀ ∈ t
      · exact ih hb (fun s a ha hne => hpres s a (List.mem_cons_of_mem _ ha) hne) hset _
      · have hba : b = a₀ := by
          rcases List.mem_cons.mp hmem with h | h
          · exact h.symm
          · exact absurd h hb
        subst hba
        rw [foldl_obs_id f obs t _ (fun s a ha =>
          hpres s a (List.mem_cons_of_mem _ ha) (fun he => hb (he ▸ ha)))]
        exact hset init

/-! ## Small cast helpers -/

theorem chunkWidthInt : ((CHUNK_WIDTH : Nat) : Int) = 16 := rfl

theorem chunkHeightInt : ((CHUNK_HEIGHT : Nat) : Int) = 256 := rfl

theorem chunkDepthInt : ((CHUNK_DEPTH : Nat) : Int) = 16 := rfl

/-! ## Claim theorems -/

/-- Claim C1: the world-to-chunk coordinate translation used by
`World.getBlock` and `World.setBlock` — `mathFloorDiv` (the model of
`Math.floor(worldCoord / dimension)`) and `euclideanModulo` (the model of
`THREE.MathUtils.euclideanModulo`) — computes `chunkCoord = ⌊w / d⌋` (floor
division) and a local coordinate equal to `w - chunkCoord * d` lying in
`[0, d)`, for both dimensions d = 16 (X/Z) and d = 256 (Y); in particular
world Y = -1 maps to chunk Y = -1 with local Y = 255. -/
theorem claim_C1 (w : Int) :
    (mathFloorDiv w 16 = Int.fdiv w 16 ∧
     euclideanModulo w 16 = w - mathFloorDiv w 16 * 16 ∧
     0 ≤ euclideanModulo w 16 ∧ euclideanModulo w 16 < 16) ∧
    (mathFloorDiv w 256 = Int.fdiv w 256 ∧
     euclideanModulo w 256 = w - mathFloorDiv w 256 * 256 ∧
     0 ≤ euclideanModulo w 256 ∧ euclideanModulo w 256 < 256) ∧
    (mathFloorDiv (-1) 256 = -1 ∧ euclideanModulo (-1) 256 = 255) := by
  have hf16 : Int.fdiv w 16 = w / 16 := Int.fdiv_eq_ediv w (by norm_num)
  have hf256 : Int.fdiv w 256 = w / 256 := Int.fdiv_eq_ediv w (by norm_num)
  refine ⟨⟨?_, ?_, ?_, ?_⟩, ⟨?_, ?_, ?_, ?_⟩, ?_, ?_⟩ <;>
    simp only [mathFloorDiv_sixteen, mathFloorDiv_two56, euclideanModulo_sixteen,
      euclideanModulo_two56, hf16, hf256] <;> omega

/-- Claim C9: `World.getBlock` at a world coordinate whose addressed chunk
(at chunk coordinates `⌊w/16⌋, ⌊w/256⌋, ⌊w/16⌋`) is not in the directory
returns the air id.  The embedding of `World.getBlock` is a pure function of
the world state (the source performs no write on this path), so the
directory and dirty set are untouched by the read. -/
theorem claim_C9 (s : WorldState) (worldX worldY worldZ : Int)
    (h : s.chunks (mathFloorDiv worldX 16, mathFloorDiv worldY 256, mathFloorDiv worldZ 16)
      = none) :
    World.getBlock s worldX worldY worldZ = airBlock.id := by
  unfold World.getBlock World.getChunk
  simp only [chunkWidthInt, chunkHeightInt, chunkDepthInt, h]

theorem claim_C9_witness : World.getBlock w9 5 (-1) 3 = airBlock.id :=
  claim_C9 w9 5 (-1) 3 rfl

/-- Claim C8: `Chunk.getBlock` is total on all integer local coordinates: any
coordinate outside `[0, 16) × [0, 256) × [0, 16)` yields the air id `0`, and
an in-range coordinate yields the stored byte at the Y-major index
`y*(width*depth) + z*width + x`. -/
theorem claim_C8 (c : Chunk) (x y z : Int) :
    ((x < 0 ∨ 16 ≤ x ∨ y < 0 ∨ 256 ≤ y ∨ z < 0 ∨ 16 ≤ z) →
      Chunk.getBlock c x y z = airBlock.id) ∧
    (0 ≤ x → x < 16 → 0 ≤ y → y < 256 → 0 ≤ z → z < 16 →
      Chunk.getBlock c x y z = c.blocks (y * (16 * 16) + z * 16 + x).toNat) := by
  unfold Chunk.getBlock Chunk._isValidCoordinate Chunk._getIndex
  simp only [chunkWidthInt, chunkHeightInt, chunkDepthInt, Bool.and_eq_true,
    decide_eq_true_eq]
  constructor
  · intro hout
    rw [if_neg]
    intro hval
    omega
  · intro h1 h2 h3 h4 h5 h6
    rw [if_pos]
    omega

theorem claim_C8_witness :
    Chunk.getBlock c8chunk (-1) 0 0 = airBlock.id ∧
    Chunk.getBlock c8chunk 3 5 7 = c8chunk.blocks ((5 * (16 * 16) + 7 * 16 + 3 : Int)).toNat :=
  ⟨(claim_C8 c8chunk (-1) 0 0).1 (by norm_num),
   (claim_C8 c8chunk 3 5 7).2 (by norm_num) (by norm_num) (by norm_num) (by norm_num)
     (by norm_num) (by norm_num)⟩

/-- Claim C4: the height-map `TerrainGenerator.getBlockId` computes
`surfaceY = ⌊baseLevel + noise(worldX/scale, worldZ/scale) * amplitude⌋`
from 2D noise over (worldX, worldZ) and classifies: air strictly above
`surfaceY`, grass exactly at it, dirt within `dirtDepth = 3` blocks below,
stone further below. -/
theorem claim_C4 (noise : Rat → Rat → Rat) (worldX worldY worldZ : Int) :
    (TerrainGenerator.getBlockId noise worldX worldY worldZ = airBlock.id ↔
      worldY > ⌊TerrainGenerator.baseLevel +
        noise ((worldX : Rat) / TerrainGenerator.surfaceScale)
          ((worldZ : Rat) / TerrainGenerator.surfaceScale) * TerrainGenerator.amplitude⌋) ∧
    (TerrainGenerator.getBlockId noise worldX worldY worldZ = grassBlock.id ↔
      worldY = ⌊TerrainGenerator.baseLevel +
        noise ((worldX : Rat) / TerrainGenerator.surfaceScale)
          ((worldZ : Rat) / TerrainGenerator.surfaceScale) * TerrainGenerator.amplitude⌋) ∧
    (TerrainGenerator.getBlockId noise worldX worldY worldZ = dirtBlock.id ↔
      (⌊TerrainGenerator.baseLevel +
        noise ((worldX : Rat) / TerrainGenerator.surfaceScale)
          ((worldZ : Rat) / TerrainGenerator.surfaceScale) * TerrainGenerator.amplitude⌋ - 3 ≤
        worldY ∧
       worldY < ⌊TerrainGenerator.baseLevel +
        noise ((worldX : Rat) / TerrainGenerator.surfaceScale)
          ((worldZ : Rat) / TerrainGenerator.surfaceScale) * TerrainGenerator.amplitude⌋)) ∧
    (TerrainGenerator.getBlockId noise worldX worldY worldZ = stoneBlock.id ↔
      worldY < ⌊TerrainGenerator.baseLevel +
        noise ((worldX : Rat) / TerrainGenerator.surfaceScale)
          ((worldZ : Rat) / TerrainGenerator.surfaceScale) * TerrainGenerator.amplitude⌋ - 3) := by
  unfold TerrainGenerator.getBlockId
  simp only [airBlock, grassBlock, dirtBlock, stoneBlock, TerrainGenerator.dirtDepth]
  split_ifs with h1 h2 h3 <;>
    refine ⟨⟨fun _ => ?_, fun _ => ?_⟩, ⟨fun _ => ?_, fun _ => ?_⟩,
      ⟨fun _ => ?_, fun _ => ?_⟩, ⟨fun _ => ?_, fun _ => ?_⟩⟩ <;>
    first
      | rfl
      | omega
      | (exfalso; omega)
      | (exfalso; simp_all)

/-! ## Helper lemmas about the mesher's inner loops -/

theorem range4_eq : List.range 4 = [0, 1, 2, 3] := rfl

theorem range6_eq : List.range 6 = [0, 1, 2, 3, 4, 5] := rfl

theorem pushFaceVertexData_spec (fv fuv : List Rat) (fi x y z : Nat) (s : GeomData) :
    (ChunkMesher.pushFaceVertexData fv fuv fi x y z s).positions.length =
      s.positions.length + 12 ∧
    (ChunkMesher.pushFaceVertexData fv fuv fi x y z s).normals.length =
      s.normals.length + 12 ∧
    (ChunkMesher.pushFaceVertexData fv fuv fi x y z s).uvs.length = s.uvs.length + 8 ∧
    (ChunkMesher.pushFaceVertexData fv fuv fi x y z s).indices = s.indices ∧
    (ChunkMesher.pushFaceVertexData fv fuv fi x y z s).vertexIndex = s.vertexIndex := by
  refine ⟨?_, ?_, ?_, ?_, ?_⟩ <;>
    simp [ChunkMesher.pushFaceVertexData, range4_eq, List.foldl]

/-- Claim C5: every emitted quad appends exactly 6 triangle indices that
reference the 4 vertices just pushed (offsets 0..3 from the running
`vertexIndex`), the winding table is selected purely by face identity —
`INDICES_CW = [0,2,1,1,2,3]` for the top/bottom faces 2 and 3 and
`INDICES_CCW = [0,1,2,1,3,2]` for the four lateral faces — uniformly for
every block, position and prior state, and the two tables are opposite
windings (each triangle of one is the corresponding triangle of the other
with its last two vertices swapped). -/
theorem claim_C5 (blockId x y z faceIndex : Nat) (s : GeomData)
    ( _hface : faceIndex < 6)
    (huv : (getBlockTextureUV blockId (FACE_NAMES.getD faceIndex FaceName.east)).isSome = true) :
    (ChunkMesher.emitFace blockId x y z faceIndex s).indices =
      s.indices ++ (if faceIndex = 2 ∨ faceIndex = 3 then INDICES_CW else INDICES_CCW).map
        (fun i => s.vertexIndex + i) ∧
    (ChunkMesher.emitFace blockId x y z faceIndex s).vertexIndex = s.vertexIndex + 4 ∧
    (ChunkMesher.emitFace blockId x y z faceIndex s).positions.length =
      s.positions.length + 3 * 4 ∧
    (∀ i ∈ (if faceIndex = 2 ∨ faceIndex = 3 then INDICES_CW else INDICES_CCW),
      s.vertexIndex + i < s.vertexIndex + 4) ∧
    INDICES_CW = [0, 2, 1, 1, 2, 3] ∧
    INDICES_CCW = [0, 1, 2, 1, 3, 2] ∧
    INDICES_CW = [INDICES_CCW.getD 0 0, INDICES_CCW.getD 2 0, INDICES_CCW.getD 1 0,
      INDICES_CCW.getD 3 0, INDICES_CCW.getD 5 0, INDICES_CCW.getD 4 0] := by
  obtain ⟨uv, huv2⟩ := Option.isSome_iff_exists.mp huv
  have hp := pushFaceVertexData_spec (CUBE_FACE_VERTICES.getD faceIndex [])
    (generateFaceUVs uv.1 uv.2) faceIndex x y z s
  simp only [ChunkMesher.emitFace]
  rw [huv2]
  dsimp only
  refine ⟨?_, ?_, ?_, ?_, rfl, rfl, rfl⟩
  · rw [hp.2.2.2.1, hp.2.2.2.2]
  · rw [hp.2.2.2.2]
  · rw [hp.1]
  · intro i hi
    have h4 : i ≤ 3 := by
      split at hi <;> simp [INDICES_CW, INDICES_CCW] at hi <;> omega
    omega

theorem claim_C5_witness :
    (2 : Nat) < 6 ∧
    (getBlockTextureUV 1 (FACE_NAMES.getD 2 FaceName.east)).isSome = true ∧
    (ChunkMesher.emitFace 1 0 0 0 2 GeomData.empty).vertexIndex =
      GeomData.empty.vertexIndex + 4 :=
  ⟨by norm_num, by rfl,
   (claim_C5 1 0 0 0 2 GeomData.empty (by norm_num) (by rfl)).2.1⟩

theorem emitFace_wellFormed (blockId x y z fi : Nat) (s : GeomData) (h : s.wellFormed) :
    (ChunkMesher.emitFace blockId x y z fi s).wellFormed := by
  simp only [ChunkMesher.emitFace]
  cases huv : getBlockTextureUV blockId (FACE_NAMES.getD fi FaceName.east) with
  | none => exact h
  | some uv =>
      dsimp only
      obtain ⟨hp1, hp2, hp3, hp4, hp5⟩ := pushFaceVertexData_spec
        (CUBE_FACE_VERTICES.getD fi []) (generateFaceUVs uv.1 uv.2) fi x y z s
      obtain ⟨h1, h2, h3, h4, h5, h6⟩ := h
      have hlen : (if fi = 2 ∨ fi = 3 then INDICES_CW else INDICES_CCW).length = 6 := by
        split <;> rfl
      have hbound : ∀ t ∈ (if fi = 2 ∨ fi = 3 then INDICES_CW else INDICES_CCW), t ≤ 3 := by
        intro t ht
        split at ht <;> simp [INDICES_CW, INDICES_CCW] at ht <;> omega
      refine ⟨?_, ?_, ?_, ?_, ?_, ?_⟩
      · simp only [hp1, hp5, h1]; omega
      · simp only [hp2, hp5, h2]; omega
      · simp only [hp3, hp5, h3]; omega
      · simp only [hp5]; omega
      · simp only [List.length_append, List.length_map, hp4, hp5, hlen]; omega
      · intro i hi
        simp only [hp4, hp5] at hi ⊢
        rcases List.mem_append.mp hi with hold | hnew
        · have := h6 i hold; omega
        · obtain ⟨t, ht, rfl⟩ := List.mem_map.mp hnew
          have := hbound t ht; omega

theorem processVoxel_wellFormed (chunkData : Nat → Nat) (chunkPosition : Int × Int × Int)
    (getBlockFn : Int → Int → Int → Nat) (s : GeomData) (x y z : Nat) (h : s.wellFormed) :
    (ChunkMesher.processVoxel chunkData chunkPosition getBlockFn s x y z).wellFormed := by
  unfold ChunkMesher.processVoxel
  dsimp only
  split
  · exact h
  · apply foldl_invariant _ GeomData.wellFormed _ _ ?_ h
    intro s' fi _ hs'
    dsimp only
    split
    · exact emitFace_wellFormed _ _ _ _ _ _ hs'
    · exact hs'

theorem generate_wellFormed (chunkData : Nat → Nat) (chunkPosition : Int × Int × Int)
    (getBlockFn : Int → Int → Int → Nat) :
    (ChunkMesher.generate chunkData chunkPosition getBlockFn).wellFormed := by
  unfold ChunkMesher.generate
  apply foldl_invariant _ GeomData.wellFormed _ _ ?_ ?_
  · intro s y _ hs
    apply foldl_invariant _ GeomData.wellFormed _ _ ?_ hs
    intro s' z _ hs'
    apply foldl_invariant _ GeomData.wellFormed _ _ ?_ hs'
    intro s'' x _ hs''
    exact processVoxel_wellFormed _ _ _ _ _ _ _ hs''
  · exact ⟨rfl, rfl, rfl, rfl, rfl, by intro i hi; cases hi⟩

/-- Claim C10: for every voxel array and neighbor lookup, the buffers
returned by `ChunkMesher.generate` are mutually consistent: normals and
positions have equal length, there is one UV pair per vertex
(`uvs.length/2 = positions.length/3`), the vertex count is a multiple of 4
with exactly 6 indices per 4 vertices
(`2·indices.length = 3·(positions.length/3)`), and every index is strictly
below the vertex count `positions.length/3`. -/
theorem claim_C10 (chunkData : Nat → Nat) (chunkPosition : Int × Int × Int)
    (getBlockFn : Int → Int → Int → Nat) :
    (ChunkMesher.generate chunkData chunkPosition getBlockFn).normals.length =
      (ChunkMesher.generate chunkData chunkPosition getBlockFn).positions.length ∧
    (ChunkMesher.generate chunkData chunkPosition getBlockFn).positions.length % 3 = 0 ∧
    (ChunkMesher.generate chunkData chunkPosition getBlockFn).uvs.length % 2 = 0 ∧
    (ChunkMesher.generate chunkData chunkPosition getBlockFn).uvs.length / 2 =
      (ChunkMesher.generate chunkData chunkPosition getBlockFn).positions.length / 3 ∧
    ((ChunkMesher.generate chunkData chunkPosition getBlockFn).positions.length / 3) % 4 = 0 ∧
    2 * (ChunkMesher.generate chunkData chunkPosition getBlockFn).indices.length =
      3 * ((ChunkMesher.generate chunkData chunkPosition getBlockFn).positions.length / 3) ∧
    ∀ i ∈ (ChunkMesher.generate chunkData chunkPosition getBlockFn).indices,
      i < (ChunkMesher.generate chunkData chunkPosition getBlockFn).positions.length / 3 := by
  obtain ⟨h1, h2, h3, h4, h5, h6⟩ := generate_wellFormed chunkData chunkPosition getBlockFn
  refine ⟨?_, ?_, ?_, ?_, ?_, ?_, ?_⟩
  · omega
  · omega
  · omega
  · omega
  · omega
  · omega
  · intro i hi
    have := h6 i hi
    omega

/-! ## Reduction of `generate` to its solid voxels -/

theorem getIndex_inj (x y z x' y' z' : Nat) (hx : x < 16) (hz : z < 16)
    (hx' : x' < 16) (hz' : z' < 16) :
    ChunkMesher._getIndex x y z = ChunkMesher._getIndex x' y' z' ↔
      (x = x' ∧ y = y' ∧ z = z') := by
  unfold ChunkMesher._getIndex
  simp only [CHUNK_WIDTH, CHUNK_DEPTH]
  omega

theorem processVoxel_not_solid (chunkData : Nat → Nat) (pos : Int × Int × Int)
    (lookup : Int → Int → Int → Nat) (s : GeomData) (x y z : Nat)
    (h : (getBlockById (chunkData (ChunkMesher._getIndex x y z))).solid = false) :
    ChunkMesher.processVoxel chunkData pos lookup s x y z = s := by
  unfold ChunkMesher.processVoxel
  simp [h]

theorem generate_single (chunkData : Nat → Nat) (pos : Int × Int × Int)
    (lookup : Int → Int → Int → Nat) (x0 y0 z0 : Nat)
    (hx : x0 < 16) (hy : y0 < 256) (hz : z0 < 16)
    (hair : ∀ x y z : Nat, x < 16 → y < 256 → z < 16 → ¬(x = x0 ∧ y = y0 ∧ z = z0) →
      (getBlockById (chunkData (ChunkMesher._getIndex x y z))).solid = false) :
    ChunkMesher.generate chunkData pos lookup =
      ChunkMesher.processVoxel chunkData pos lookup GeomData.empty x0 y0 z0 := by
  unfold ChunkMesher.generate
  refine Eq.trans (foldl_eq_single _ y0 _ (List.mem_range.mpr hy) (List.nodup_range _) ?_
    GeomData.empty) ?_
  · intro s y hyl hyne
    dsimp only
    refine foldl_eq_id _ _ _ ?_
    intro s' z hzl
    refine foldl_eq_id _ _ _ ?_
    intro s'' x hxl
    exact processVoxel_not_solid _ _ _ _ _ _ _
      (hair x y z (List.mem_range.mp hxl) (List.mem_range.mp hyl) (List.mem_range.mp hzl)
        (fun hc => hyne hc.2.1))
  · dsimp only
    refine Eq.trans (foldl_eq_single _ z0 _ (List.mem_range.mpr hz) (List.nodup_range _) ?_
      GeomData.empty) ?_
    · intro s z hzl hzne
      dsimp only
      refine foldl_eq_id _ _ _ ?_
      intro s' x hxl
      exact processVoxel_not_solid _ _ _ _ _ _ _
        (hair x y0 z (List.mem_range.mp hxl) hy (List.mem_range.mp hzl)
          (fun hc => hzne hc.2.2))
    · dsimp only
      refine Eq.trans (foldl_eq_single _ x0 _ (List.mem_range.mpr hx) (List.nodup_range _) ?_
        GeomData.empty) ?_
      · intro s x hxl hxne
        exact processVoxel_not_solid _ _ _ _ _ _ _
          (hair x y0 z0 (List.mem_range.mp hxl) hy hz (fun hc => hxne hc.1))
      · rfl

theorem generate_double (chunkData : Nat → Nat) (pos : Int × Int × Int)
    (lookup : Int → Int → Int → Nat)
    (hair : ∀ x y z : Nat, x < 16 → y < 256 → z < 16 →
      ¬(x = 1 ∧ y = 1 ∧ z = 1) → ¬(x = 2 ∧ y = 1 ∧ z = 1) →
      (getBlockById (chunkData (ChunkMesher._getIndex x y z))).solid = false) :
    ChunkMesher.generate chunkData pos lookup =
      ChunkMesher.processVoxel chunkData pos lookup
        (ChunkMesher.processVoxel chunkData pos lookup GeomData.empty 1 1 1) 2 1 1 := by
  unfold ChunkMesher.generate
  refine Eq.trans (foldl_eq_single _ 1 _ (List.mem_range.mpr (by decide))
    (List.nodup_range _) ?_ GeomData.empty) ?_
  · intro s y hyl hyne
    dsimp only
    refine foldl_eq_id _ _ _ ?_
    intro s' z hzl
    refine foldl_eq_id _ _ _ ?_
    intro s'' x hxl
    exact processVoxel_not_solid _ _ _ _ _ _ _
      (hair x y z (List.mem_range.mp hxl) (List.mem_range.mp hyl) (List.mem_range.mp hzl)
        (fun hc => hyne hc.2.1) (fun hc => hyne hc.2.1))
  · dsimp only
    refine Eq.trans (foldl_eq_single _ 1 _ (List.mem_range.mpr (by decide))
      (List.nodup_range _) ?_ GeomData.empty) ?_
    · intro s z hzl hzne
      dsimp only
      refine foldl_eq_id _ _ _ ?_
      intro s' x hxl
      exact processVoxel_not_solid _ _ _ _ _ _ _
        (hair x 1 z (List.mem_range.mp hxl) (by norm_num) (List.mem_range.mp hzl)
          (fun hc => hzne hc.2.2) (fun hc => hzne hc.2.2))
    · dsimp only
      rw [show List.range CHUNK_WIDTH =
        [0] ++ 1 :: ([] ++ 2 :: [3, 4, 5, 6, 7, 8, 9, 10, 11, 12, 13, 14, 15]) from rfl]
      refine Eq.trans (foldl_eq_pair _ 1 2 [0] [] [3, 4, 5, 6, 7, 8, 9, 10, 11, 12, 13, 14, 15]
        GeomData.empty ?_) rfl
      intro s a ha
      have hb : a < 16 ∧ a ≠ 1 ∧ a ≠ 2 := by
        rcases ha with h | h | h <;> simp at h <;> omega
      exact processVoxel_not_solid _ _ _ _ _ _ _
        (hair a 1 1 hb.1 (by norm_num) (by norm_num)
          (fun hc => hb.2.1 hc.1) (fun hc => hb.2.2 hc.1))

set_option maxRecDepth 8000 in
/-- Claim C3: face-count results of the meshing algorithm, with neighbor
lookups that resolve every out-of-chunk coordinate to air.  A single solid
block with 6 non-solid neighbors yields 24 vertices / 36 indices; two
face-adjacent solid blocks yield 40 vertices / 60 indices; a solid block
whose 6 neighbors are all solid yields 0 vertices / 0 indices; a solid block
with exactly one non-solid neighbor (above it) yields 4 vertices / 6
indices, all four emitted normals being the top face's constant (0,1,0). -/
theorem claim_C3 :
    ((ChunkMesher.generate singleGrassData (0, 0, 0)
        (mockGetBlock singleGrassData)).positions.length = 3 * 24 ∧
     (ChunkMesher.generate singleGrassData (0, 0, 0)
        (mockGetBlock singleGrassData)).indices.length = 36) ∧
    ((ChunkMesher.generate twoGrassData (0, 0, 0)
        (mockGetBlock twoGrassData)).positions.length = 3 * 40 ∧
     (ChunkMesher.generate twoGrassData (0, 0, 0)
        (mockGetBlock twoGrassData)).indices.length = 60) ∧
    ((ChunkMesher.generate centerStoneData (0, 0, 0) surroundedLookup).positions.length = 0 ∧
     (ChunkMesher.generate centerStoneData (0, 0, 0) surroundedLookup).indices.length = 0) ∧
    ((ChunkMesher.generate singleGrassData (0, 0, 0) topAirLookup).positions.length = 3 * 4 ∧
     (ChunkMesher.generate singleGrassData (0, 0, 0) topAirLookup).indices.length = 6 ∧
     (ChunkMesher.generate singleGrassData (0, 0, 0) topAirLookup).normals =
       [0, 1, 0, 0, 1, 0, 0, 1, 0, 0, 1, 0]) := by
  have hairSingle : ∀ x y z : Nat, x < 16 → y < 256 → z < 16 →
      ¬(x = 1 ∧ y = 1 ∧ z = 1) →
      (getBlockById (singleGrassData (ChunkMesher._getIndex x y z))).solid = false := by
    intro x y z hx hy hz hne
    unfold singleGrassData
    rw [if_neg (fun h => hne ((getIndex_inj x y z 1 1 1 hx hz (by norm_num) (by norm_num)).mp h))]
    rfl
  have hairStone : ∀ x y z : Nat, x < 16 → y < 256 → z < 16 →
      ¬(x = 1 ∧ y = 1 ∧ z = 1) →
      (getBlockById (centerStoneData (ChunkMesher._getIndex x y z))).solid = false := by
    intro x y z hx hy hz hne
    unfold centerStoneData
    rw [if_neg (fun h => hne ((getIndex_inj x y z 1 1 1 hx hz (by norm_num) (by norm_num)).mp h))]
    rfl
  have hairTwo : ∀ x y z : Nat, x < 16 → y < 256 → z < 16 →
      ¬(x = 1 ∧ y = 1 ∧ z = 1) → ¬(x = 2 ∧ y = 1 ∧ z = 1) →
      (getBlockById (twoGrassData (ChunkMesher._getIndex x y z))).solid = false := by
    intro x y z hx hy hz hne1 hne2
    unfold twoGrassData
    rw [if_neg]
    · rfl
    · rintro (h | h)
      · exact hne1 ((getIndex_inj x y z 1 1 1 hx hz (by norm_num) (by norm_num)).mp h)
      · exact hne2 ((getIndex_inj x y z 2 1 1 hx hz (by norm_num) (by norm_num)).mp h)
  have e1 := generate_single singleGrassData (0, 0, 0) (mockGetBlock singleGrassData)
    1 1 1 (by norm_num) (by norm_num) (by norm_num) hairSingle
  have e2 := generate_double twoGrassData (0, 0, 0) (mockGetBlock twoGrassData) hairTwo
  have e3 := generate_single centerStoneData (0, 0, 0) surroundedLookup
    1 1 1 (by norm_num) (by norm_num) (by norm_num) hairStone
  have e4 := generate_single singleGrassData (0, 0, 0) topAirLookup
    1 1 1 (by norm_num) (by norm_num) (by norm_num) hairSingle
  rw [e1, e2, e3, e4]
  refine ⟨⟨by decide, by decide⟩, ⟨by decide, by decide⟩, ⟨by decide, by decide⟩,
    by decide, by decide, by decide⟩

theorem getIndexNat_inj (x y z x' y' z' : Nat) (hx : x < 16) (hz : z < 16)
    (hx' : x' < 16) (hz' : z' < 16) :
    Chunk.getIndexNat x y z = Chunk.getIndexNat x' y' z' ↔ (x = x' ∧ y = y' ∧ z = z') := by
  unfold Chunk.getIndexNat
  simp only [CHUNK_WIDTH, CHUNK_DEPTH]
  omega

set_option maxRecDepth 4000 in
/-- Claim C6: `World.getOrCreateChunk` is idempotent.  When a chunk already
exists for the key it is returned with the world state unchanged (no
allocation, terrain generation or dirty-marking); two calls with the same
key return the same chunk; and on first creation the directory maps the key
to the returned chunk, the key is added to the dirty set, and every voxel of
the new chunk holds the terrain generator's value at the corresponding
world coordinate. -/
theorem claim_C6 (s : WorldState) (chunkX chunkY chunkZ : Int) :
    (∀ c, s.chunks (chunkX, chunkY, chunkZ) = some c →
      World.getOrCreateChunk s chunkX chunkY chunkZ = (c, s)) ∧
    (World.getOrCreateChunk (World.getOrCreateChunk s chunkX chunkY chunkZ).2
        chunkX chunkY chunkZ =
      World.getOrCreateChunk s chunkX chunkY chunkZ) ∧
    (s.chunks (chunkX, chunkY, chunkZ) = none →
      ((World.getOrCreateChunk s chunkX chunkY chunkZ).2.chunks (chunkX, chunkY, chunkZ) =
        some (World.getOrCreateChunk s chunkX chunkY chunkZ).1 ∧
       (World.getOrCreateChunk s chunkX chunkY chunkZ).2.dirtyChunks =
        insert (chunkX, chunkY, chunkZ) s.dirtyChunks ∧
       ∀ lx ly lz : Nat, lx < 16 → ly < 256 → lz < 16 →
        (World.getOrCreateChunk s chunkX chunkY chunkZ).1.blocks (Chunk.getIndexNat lx ly lz) =
          s.gen (chunkX * 16 + lx) (chunkY * 256 + ly) (chunkZ * 16 + lz))) := by
  have hit : ∀ (s' : WorldState) c, s'.chunks (chunkX, chunkY, chunkZ) = some c →
      World.getOrCreateChunk s' chunkX chunkY chunkZ = (c, s') := by
    intro s' c hc
    unfold World.getOrCreateChunk
    rw [hc]
  have hmiss : ∀ (h : s.chunks (chunkX, chunkY, chunkZ) = none),
      (World.getOrCreateChunk s chunkX chunkY chunkZ).2.chunks (chunkX, chunkY, chunkZ) =
        some (World.getOrCreateChunk s chunkX chunkY chunkZ).1 ∧
      (World.getOrCreateChunk s chunkX chunkY chunkZ).2.dirtyChunks =
        insert (chunkX, chunkY, chunkZ) s.dirtyChunks := by
    intro h
    unfold World.getOrCreateChunk
    rw [h]
    exact ⟨Function.update_same _ _ _, rfl⟩
  refine ⟨fun c hc => hit s c hc, ?_, ?_⟩
  · cases h : s.chunks (chunkX, chunkY, chunkZ) with
    | some c =>
        rw [hit s c h, hit s c h]
    | none =>
        have h2 := (hmiss h).1
        rw [hit _ _ h2]
  · intro h
    refine ⟨(hmiss h).1, (hmiss h).2, ?_⟩
    intro lx ly lz hlx hly hlz
    unfold World.getOrCreateChunk
    rw [h]
    dsimp only
    refine foldl_obs_single _ (fun (b : Nat → Nat) => b (Chunk.getIndexNat lx ly lz)) lx
      (s.gen (chunkX * 16 + lx) (chunkY * 256 + ly) (chunkZ * 16 + lz)) _
      (List.mem_range.mpr hlx) ?_ ?_ _
    · intro b x hxl hxne
      dsimp only
      refine foldl_obs_id _ (fun (b : Nat → Nat) => b (Chunk.getIndexNat lx ly lz)) _ _ ?_
      intro b' z hzl
      refine foldl_obs_id _ (fun (b : Nat → Nat) => b (Chunk.getIndexNat lx ly lz)) _ _ ?_
      intro b'' y hyl
      dsimp only
      refine Function.update_noteq ?_ _ _
      intro hkey
      exact hxne ((getIndexNat_inj x y z lx ly lz (List.mem_range.mp hxl)
        (List.mem_range.mp hzl) hlx hlz).mp hkey.symm).1
    · intro b
      dsimp only
      refine foldl_obs_single _ (fun (b : Nat → Nat) => b (Chunk.getIndexNat lx ly lz)) lz _ _
        (List.mem_range.mpr hlz) ?_ ?_ _
      · intro b' z hzl hzne
        refine foldl_obs_id _ (fun (b : Nat → Nat) => b (Chunk.getIndexNat lx ly lz)) _ _ ?_
        intro b'' y hyl
        dsimp only
        refine Function.update_noteq ?_ _ _
        intro hkey
        exact hzne ((getIndexNat_inj lx y z lx ly lz hlx (List.mem_range.mp hzl)
          hlx hlz).mp hkey.symm).2.2
      · intro b'
        refine foldl_obs_single _ (fun (b : Nat → Nat) => b (Chunk.getIndexNat lx ly lz)) ly _ _
          (List.mem_range.mpr hly) ?_ ?_ _
        · intro b'' y hyl hyne
          dsimp only
          refine Function.update_noteq ?_ _ _
          intro hkey
          exact hyne ((getIndexNat_inj lx y lz lx ly lz hlx hlz hlx hlz).mp hkey.symm).2.1
        · intro b''
          dsimp only
          rw [Function.update_same]
          simp only [chunkWidthInt, chunkHeightInt, chunkDepthInt]

theorem claim_C6_witness :
    World.getOrCreateChunk w6 0 0 0 = (c6chunk, w6) ∧
    ((World.getOrCreateChunk w6 1 0 0).2.chunks (1, 0, 0) =
      some (World.getOrCreateChunk w6 1 0 0).1 ∧
     (World.getOrCreateChunk w6 1 0 0).2.dirtyChunks = insert (1, 0, 0) w6.dirtyChunks ∧
     ∀ lx ly lz : Nat, lx < 16 → ly < 256 → lz < 16 →
      (World.getOrCreateChunk w6 1 0 0).1.blocks (Chunk.getIndexNat lx ly lz) =
        w6.gen (1 * 16 + lx) (0 * 256 + ly) (0 * 16 + lz)) :=
  ⟨(claim_C6 w6 0 0 0).1 c6chunk (by rfl),
   (claim_C6 w6 1 0 0).2.2 (by rfl)⟩

theorem isValid_iff (x y z : Int) :
    Chunk._isValidCoordinate x y z = true ↔
      (0 ≤ x ∧ x < 16 ∧ 0 ≤ y ∧ y < 256 ∧ 0 ≤ z ∧ z < 16) := by
  unfold Chunk._isValidCoordinate
  simp only [chunkWidthInt, chunkHeightInt, chunkDepthInt, Bool.and_eq_true, decide_eq_true_eq]
  tauto

theorem setBlock_fst_spec (c : Chunk) (x y z : Int) (blockId : Nat) :
    (Chunk.setBlock c x y z blockId).1 = true ↔
      (Chunk._isValidCoordinate x y z = true ∧
        c.blocks (Chunk._getIndex x y z).toNat ≠ blockId) := by
  unfold Chunk.setBlock
  dsimp only
  split
  · split
    · simp_all
    · simp_all
  · simp_all

theorem setBlock_snd_spec (c : Chunk) (x y z : Int) (blockId : Nat) :
    (Chunk.setBlock c x y z blockId).2 =
      if Chunk._isValidCoordinate x y z = true ∧
          c.blocks (Chunk._getIndex x y z).toNat ≠ blockId then
        { c with blocks := Function.update c.blocks (Chunk._getIndex x y z).toNat blockId }
      else c := by
  unfold Chunk.setBlock
  dsimp only
  split
  · split
    · rw [if_pos] <;> simp_all
    · rw [if_neg] <;> simp_all
  · rw [if_neg]
    simp_all

theorem markNeighborStep_chunks (a1 a2 a3 b1 b2 b3 c1 c2 c3 : Int) (s : WorldState)
    (off : Int × Int × Int) :
    (World.markNeighborStep a1 a2 a3 b1 b2 b3 c1 c2 c3 s off).chunks = s.chunks := by
  unfold World.markNeighborStep
  dsimp only
  repeat' split
  all_goals rfl

theorem markNeighborStep_gen (a1 a2 a3 b1 b2 b3 c1 c2 c3 : Int) (s : WorldState)
    (off : Int × Int × Int) :
    (World.markNeighborStep a1 a2 a3 b1 b2 b3 c1 c2 c3 s off).gen = s.gen := by
  unfold World.markNeighborStep
  dsimp only
  repeat' split
  all_goals rfl

theorem checkAndMark_chunks (s : WorldState) (a1 a2 a3 b1 b2 b3 c1 c2 c3 : Int) :
    (World.checkAndMarkNeighborsDirty s a1 a2 a3 b1 b2 b3 c1 c2 c3).chunks = s.chunks := by
  unfold World.checkAndMarkNeighborsDirty
  split
  · rfl
  · exact foldl_obs_id _ WorldState.chunks _ _
      (fun s' off _ => markNeighborStep_chunks a1 a2 a3 b1 b2 b3 c1 c2 c3 s' off)

theorem setBlock_of_none (s : WorldState) (wx wy wz : Int) (id : Nat)
    (h : s.chunks (mathFloorDiv wx (CHUNK_WIDTH : Int), mathFloorDiv wy (CHUNK_HEIGHT : Int),
      mathFloorDiv wz (CHUNK_DEPTH : Int)) = none) :
    World.setBlock s wx wy wz id = s := by
  unfold World.setBlock World.getChunk
  dsimp only
  rw [h]

theorem setBlock_of_changed (s : WorldState) (wx wy wz : Int) (id : Nat) (chunk : Chunk)
    (hc : s.chunks (mathFloorDiv wx (CHUNK_WIDTH : Int), mathFloorDiv wy (CHUNK_HEIGHT : Int),
      mathFloorDiv wz (CHUNK_DEPTH : Int)) = some chunk)
    (hr : (Chunk.setBlock chunk (euclideanModulo wx (CHUNK_WIDTH : Int))
      (euclideanModulo wy (CHUNK_HEIGHT : Int)) (euclideanModulo wz (CHUNK_DEPTH : Int)) id).1
        = true) :
    World.setBlock s wx wy wz id =
      World.checkAndMarkNeighborsDirty
        { chunks := Function.update s.chunks
            (mathFloorDiv wx (CHUNK_WIDTH : Int), mathFloorDiv wy (CHUNK_HEIGHT : Int),
              mathFloorDiv wz (CHUNK_DEPTH : Int))
            (some (Chunk.setBlock chunk (euclideanModulo wx (CHUNK_WIDTH : Int))
              (euclideanModulo wy (CHUNK_HEIGHT : Int))
              (euclideanModulo wz (CHUNK_DEPTH : Int)) id).2),
          dirtyChunks := insert
            (mathFloorDiv wx (CHUNK_WIDTH : Int), mathFloorDiv wy (CHUNK_HEIGHT : Int),
              mathFloorDiv wz (CHUNK_DEPTH : Int)) s.dirtyChunks,
          gen := s.gen }
        wx wy wz
        (mathFloorDiv wx (CHUNK_WIDTH : Int)) (mathFloorDiv wy (CHUNK_HEIGHT : Int))
        (mathFloorDiv wz (CHUNK_DEPTH : Int))
        (euclideanModulo wx (CHUNK_WIDTH : Int)) (euclideanModulo wy (CHUNK_HEIGHT : Int))
        (euclideanModulo wz (CHUNK_DEPTH : Int)) := by
  unfold World.setBlock World.getChunk
  dsimp only
  rw [hc]
  dsimp only
  rw [if_pos hr]

theorem setBlock_of_unchanged (s : WorldState) (wx wy wz : Int) (id : Nat) (chunk : Chunk)
    (hc : s.chunks (mathFloorDiv wx (CHUNK_WIDTH : Int), mathFloorDiv wy (CHUNK_HEIGHT : Int),
      mathFloorDiv wz (CHUNK_DEPTH : Int)) = some chunk)
    (hr : (Chunk.setBlock chunk (euclideanModulo wx (CHUNK_WIDTH : Int))
      (euclideanModulo wy (CHUNK_HEIGHT : Int)) (euclideanModulo wz (CHUNK_DEPTH : Int)) id).1
        = false) :
    World.setBlock s wx wy wz id =
      { s with chunks := (Function.update s.chunks
          (mathFloorDiv wx (CHUNK_WIDTH : Int), mathFloorDiv wy (CHUNK_HEIGHT : Int),
            mathFloorDiv wz (CHUNK_DEPTH : Int))
          (some (Chunk.setBlock chunk (euclideanModulo wx (CHUNK_WIDTH : Int))
            (euclideanModulo wy (CHUNK_HEIGHT : Int))
            (euclideanModulo wz (CHUNK_DEPTH : Int)) id).2)) } := by
  unfold World.setBlock World.getChunk
  dsimp only
  rw [hc]
  dsimp only
  rw [if_neg]
  simp [hr]

/-- Claim C7: `Chunk.setBlock` returns `true` exactly when the coordinates
are in range and the new id differs from the stored id, and writes exactly
that one cell in that case (otherwise the chunk object is unchanged);
consequently two consecutive `World.setBlock` calls with the same position
and id leave the dirty set of the first call unchanged — the second call
observes `changed = false` and performs no dirty-marking or neighbor
propagation. -/
theorem claim_C7 (c : Chunk) (x y z : Int) (blockId : Nat)
    (s : WorldState) (worldX worldY worldZ : Int) (id2 : Nat) :
    ((Chunk.setBlock c x y z blockId).1 = true ↔
      ((0 ≤ x ∧ x < 16 ∧ 0 ≤ y ∧ y < 256 ∧ 0 ≤ z ∧ z < 16) ∧
        c.blocks (Chunk._getIndex x y z).toNat ≠ blockId)) ∧
    ((Chunk.setBlock c x y z blockId).2 =
      if (0 ≤ x ∧ x < 16 ∧ 0 ≤ y ∧ y < 256 ∧ 0 ≤ z ∧ z < 16) ∧
          c.blocks (Chunk._getIndex x y z).toNat ≠ blockId then
        { c with blocks := Function.update c.blocks (Chunk._getIndex x y z).toNat blockId }
      else c) ∧
    (World.setBlock (World.setBlock s worldX worldY worldZ id2)
        worldX worldY worldZ id2).dirtyChunks =
      (World.setBlock s worldX worldY worldZ id2).dirtyChunks := by
  refine ⟨?_, ?_, ?_⟩
  · rw [setBlock_fst_spec, isValid_iff]
  · rw [setBlock_snd_spec]
    by_cases hv : (0 ≤ x ∧ x < 16 ∧ 0 ≤ y ∧ y < 256 ∧ 0 ≤ z ∧ z < 16) ∧
        c.blocks (Chunk._getIndex x y z).toNat ≠ blockId
    · rw [if_pos hv, if_pos ⟨(isValid_iff x y z).mpr hv.1, hv.2⟩]
    · rw [if_neg hv, if_neg]
      intro hcond
      exact hv ⟨(isValid_iff x y z).mp hcond.1, hcond.2⟩
  · cases hcase : s.chunks (mathFloorDiv worldX (CHUNK_WIDTH : Int),
      mathFloorDiv worldY (CHUNK_HEIGHT : Int), mathFloorDiv worldZ (CHUNK_DEPTH : Int)) with
    | none =>
        rw [setBlock_of_none s worldX worldY worldZ id2 hcase,
          setBlock_of_none s worldX worldY worldZ id2 hcase]
    | some chunk =>
        by_cases hr : (Chunk.setBlock chunk (euclideanModulo worldX (CHUNK_WIDTH : Int))
          (euclideanModulo worldY (CHUNK_HEIGHT : Int))
          (euclideanModulo worldZ (CHUNK_DEPTH : Int)) id2).1 = true
        · rw [setBlock_of_changed s worldX worldY worldZ id2 chunk hcase hr]
          have hval := (setBlock_fst_spec chunk _ _ _ id2).mp hr
          have hblocks : (Chunk.setBlock chunk (euclideanModulo worldX (CHUNK_WIDTH : Int))
              (euclideanModulo worldY (CHUNK_HEIGHT : Int))
              (euclideanModulo worldZ (CHUNK_DEPTH : Int)) id2).2.blocks
              (Chunk._getIndex (euclideanModulo worldX (CHUNK_WIDTH : Int))
                (euclideanModulo worldY (CHUNK_HEIGHT : Int))
                (euclideanModulo worldZ (CHUNK_DEPTH : Int))).toNat = id2 := by
            rw [setBlock_snd_spec, if_pos hval]
            exact Function.update_same _ _ _
          have hc2 : (World.checkAndMarkNeighborsDirty
              { chunks := Function.update s.chunks
                  (mathFloorDiv worldX (CHUNK_WIDTH : Int),
                    mathFloorDiv worldY (CHUNK_HEIGHT : Int),
                    mathFloorDiv worldZ (CHUNK_DEPTH : Int))
                  (some (Chunk.setBlock chunk (euclideanModulo worldX (CHUNK_WIDTH : Int))
                    (euclideanModulo worldY (CHUNK_HEIGHT : Int))
                    (euclideanModulo worldZ (CHUNK_DEPTH : Int)) id2).2),
                dirtyChunks := insert
                  (mathFloorDiv worldX (CHUNK_WIDTH : Int),
                    mathFloorDiv worldY (CHUNK_HEIGHT : Int),
                    mathFloorDiv worldZ (CHUNK_DEPTH : Int)) s.dirtyChunks,
                gen := s.gen }
              worldX worldY worldZ
              (mathFloorDiv worldX (CHUNK_WIDTH : Int))
              (mathFloorDiv worldY (CHUNK_HEIGHT : Int))
              (mathFloorDiv worldZ (CHUNK_DEPTH : Int))
              (euclideanModulo worldX (CHUNK_WIDTH : Int))
              (euclideanModulo worldY (CHUNK_HEIGHT : Int))
              (euclideanModulo worldZ (CHUNK_DEPTH : Int))).chunks
              (mathFloorDiv worldX (CHUNK_WIDTH : Int),
                mathFloorDiv worldY (CHUNK_HEIGHT : Int),
                mathFloorDiv worldZ (CHUNK_DEPTH : Int)) =
              some (Chunk.setBlock chunk (euclideanModulo worldX (CHUNK_WIDTH : Int))
                (euclideanModulo worldY (CHUNK_HEIGHT : Int))
                (euclideanModulo worldZ (CHUNK_DEPTH : Int)) id2).2 := by
            rw [checkAndMark_chunks]
            exact Function.update_same _ _ _
          have hr2 : (Chunk.setBlock
              (Chunk.setBlock chunk (euclideanModulo worldX (CHUNK_WIDTH : Int))
                (euclideanModulo worldY (CHUNK_HEIGHT : Int))
                (euclideanModulo worldZ (CHUNK_DEPTH : Int)) id2).2
              (euclideanModulo worldX (CHUNK_WIDTH : Int))
              (euclideanModulo worldY (CHUNK_HEIGHT : Int))
              (euclideanModulo worldZ (CHUNK_DEPTH : Int)) id2).1 = false := by
            cases hb : (Chunk.setBlock
                (Chunk.setBlock chunk (euclideanModulo worldX (CHUNK_WIDTH : Int))
                  (euclideanModulo worldY (CHUNK_HEIGHT : Int))
                  (euclideanModulo worldZ (CHUNK_DEPTH : Int)) id2).2
                (euclideanModulo worldX (CHUNK_WIDTH : Int))
                (euclideanModulo worldY (CHUNK_HEIGHT : Int))
                (euclideanModulo worldZ (CHUNK_DEPTH : Int)) id2).1 with
            | false => rfl
            | true => exact absurd hblocks ((setBlock_fst_spec _ _ _ _ id2).mp hb).2
          rw [setBlock_of_unchanged _ worldX worldY worldZ id2 _ hc2 hr2]
        · have hr' : (Chunk.setBlock chunk (euclideanModulo worldX (CHUNK_WIDTH : Int))
              (euclideanModulo worldY (CHUNK_HEIGHT : Int))
              (euclideanModulo worldZ (CHUNK_DEPTH : Int)) id2).1 = false := by
            rwa [Bool.not_eq_true] at hr
          rw [setBlock_of_unchanged s worldX worldY worldZ id2 chunk hcase hr']
          have hsnd : (Chunk.setBlock chunk (euclideanModulo worldX (CHUNK_WIDTH : Int))
              (euclideanModulo worldY (CHUNK_HEIGHT : Int))
              (euclideanModulo worldZ (CHUNK_DEPTH : Int)) id2).2 = chunk := by
            rw [setBlock_snd_spec, if_neg]
            intro hcond
            rw [(setBlock_fst_spec chunk _ _ _ id2).mpr hcond] at hr'
            exact Bool.true_eq_false.mp hr'
          have hc2 : ({ s with chunks := (Function.update s.chunks
              (mathFloorDiv worldX (CHUNK_WIDTH : Int),
                mathFloorDiv worldY (CHUNK_HEIGHT : Int),
                mathFloorDiv worldZ (CHUNK_DEPTH : Int))
              (some (Chunk.setBlock chunk (euclideanModulo worldX (CHUNK_WIDTH : Int))
                (euclideanModulo worldY (CHUNK_HEIGHT : Int))
                (euclideanModulo worldZ (CHUNK_DEPTH : Int)) id2).2)) } : WorldState).chunks
              (mathFloorDiv worldX (CHUNK_WIDTH : Int),
                mathFloorDiv worldY (CHUNK_HEIGHT : Int),
                mathFloorDiv worldZ (CHUNK_DEPTH : Int)) =
              some chunk := by
            dsimp only
            rw [Function.update_same, hsnd]
          rw [setBlock_of_unchanged _ worldX worldY worldZ id2 chunk hc2 hr']

theorem shouldMark_iff (o1 o2 o3 c1 c2 c3 : Int) :
    ((if o1 = 1 ∧ c1 = (CHUNK_WIDTH : Int) - 1 then true
      else if o1 = -1 ∧ c1 = 0 then true
      else if o2 = 1 ∧ c2 = (CHUNK_HEIGHT : Int) - 1 then true
      else if o2 = -1 ∧ c2 = 0 then true
      else if o3 = 1 ∧ c3 = (CHUNK_DEPTH : Int) - 1 then true
      else if o3 = -1 ∧ c3 = 0 then true
      else false) = true) ↔
      ((o1 = 1 ∧ c1 = (CHUNK_WIDTH : Int) - 1) ∨ (o1 = -1 ∧ c1 = 0) ∨
       (o2 = 1 ∧ c2 = (CHUNK_HEIGHT : Int) - 1) ∨ (o2 = -1 ∧ c2 = 0) ∨
       (o3 = 1 ∧ c3 = (CHUNK_DEPTH : Int) - 1) ∨ (o3 = -1 ∧ c3 = 0)) := by
  constructor
  · intro h
    split_ifs at h with h1 h2 h3 h4 h5 h6
    · exact Or.inl h1
    · exact Or.inr (Or.inl h2)
    · exact Or.inr (Or.inr (Or.inl h3))
    · exact Or.inr (Or.inr (Or.inr (Or.inl h4)))
    · exact Or.inr (Or.inr (Or.inr (Or.inr (Or.inl h5))))
    · exact Or.inr (Or.inr (Or.inr (Or.inr (Or.inr h6))))
  · intro h
    split_ifs with h1 h2 h3 h4 h5 h6 <;> first | rfl | (exfalso; tauto)

theorem markNeighborStep_eq (a1 a2 a3 b1 b2 b3 c1 c2 c3 : Int) (s : WorldState)
    (off : Int × Int × Int) :
    World.markNeighborStep a1 a2 a3 b1 b2 b3 c1 c2 c3 s off =
      if ((mathFloorDiv (a1 + off.1) (CHUNK_WIDTH : Int) ≠ b1 ∨
           mathFloorDiv (a2 + off.2.1) (CHUNK_HEIGHT : Int) ≠ b2 ∨
           mathFloorDiv (a3 + off.2.2) (CHUNK_DEPTH : Int) ≠ b3) ∧
          ((off.1 = 1 ∧ c1 = (CHUNK_WIDTH : Int) - 1) ∨ (off.1 = -1 ∧ c1 = 0) ∨
           (off.2.1 = 1 ∧ c2 = (CHUNK_HEIGHT : Int) - 1) ∨ (off.2.1 = -1 ∧ c2 = 0) ∨
           (off.2.2 = 1 ∧ c3 = (CHUNK_DEPTH : Int) - 1) ∨ (off.2.2 = -1 ∧ c3 = 0)) ∧
          (s.chunks (mathFloorDiv (a1 + off.1) (CHUNK_WIDTH : Int),
            mathFloorDiv (a2 + off.2.1) (CHUNK_HEIGHT : Int),
            mathFloorDiv (a3 + off.2.2) (CHUNK_DEPTH : Int))).isSome = true) then
        { s with dirtyChunks := (insert
            (mathFloorDiv (a1 + off.1) (CHUNK_WIDTH : Int),
              mathFloorDiv (a2 + off.2.1) (CHUNK_HEIGHT : Int),
              mathFloorDiv (a3 + off.2.2) (CHUNK_DEPTH : Int)) s.dirtyChunks) }
      else s := by
  unfold World.markNeighborStep World.getChunk
  dsimp only
  simp only [shouldMark_iff]
  by_cases hA : (mathFloorDiv (a1 + off.1) (CHUNK_WIDTH : Int) ≠ b1 ∨
      mathFloorDiv (a2 + off.2.1) (CHUNK_HEIGHT : Int) ≠ b2 ∨
      mathFloorDiv (a3 + off.2.2) (CHUNK_DEPTH : Int) ≠ b3)
  · rw [if_pos hA]
    by_cases hB : ((off.1 = 1 ∧ c1 = (CHUNK_WIDTH : Int) - 1) ∨ (off.1 = -1 ∧ c1 = 0) ∨
        (off.2.1 = 1 ∧ c2 = (CHUNK_HEIGHT : Int) - 1) ∨ (off.2.1 = -1 ∧ c2 = 0) ∨
        (off.2.2 = 1 ∧ c3 = (CHUNK_DEPTH : Int) - 1) ∨ (off.2.2 = -1 ∧ c3 = 0))
    · rw [if_pos hB]
      cases hopt : s.chunks (mathFloorDiv (a1 + off.1) (CHUNK_WIDTH : Int),
          mathFloorDiv (a2 + off.2.1) (CHUNK_HEIGHT : Int),
          mathFloorDiv (a3 + off.2.2) (CHUNK_DEPTH : Int)) with
      | some c => rw [if_pos ⟨hA, hB, rfl⟩]
      | none =>
          rw [if_neg]
          intro hcond
          exact absurd hcond.2.2 (by decide)
    · rw [if_neg hB, if_neg (fun hcond => hB hcond.2.1)]
  · rw [if_neg hA, if_neg (fun hcond => hA hcond.1)]

theorem mem_ite_insert (c : Prop) [Decidable c] (d : Finset (Int × Int × Int))
    (nk k : Int × Int × Int) :
    (k ∈ if c then insert nk d else d) ↔ ((c ∧ k = nk) ∨ k ∈ d) := by
  split
  · rename_i hcc
    simp only [Finset.mem_insert]
    tauto
  · rename_i hcc
    tauto

set_option maxHeartbeats 3000000 in
theorem mem_checkAndMark (s : WorldState) (a1 a2 a3 b1 b2 b3 c1 c2 c3 : Int)
    (k : Int × Int × Int) :
    k ∈ (World.checkAndMarkNeighborsDirty s a1 a2 a3 b1 b2 b3 c1 c2 c3).dirtyChunks ↔
      (k ∈ s.dirtyChunks ∨
       ((mathFloorDiv (a1 + 1) (CHUNK_WIDTH : Int) ≠ b1 ∨
           mathFloorDiv a2 (CHUNK_HEIGHT : Int) ≠ b2 ∨
           mathFloorDiv a3 (CHUNK_DEPTH : Int) ≠ b3) ∧
         c1 = (CHUNK_WIDTH : Int) - 1 ∧
         (s.chunks (mathFloorDiv (a1 + 1) (CHUNK_WIDTH : Int), mathFloorDiv a2 (CHUNK_HEIGHT : Int),
           mathFloorDiv a3 (CHUNK_DEPTH : Int))).isSome = true ∧
         k = (mathFloorDiv (a1 + 1) (CHUNK_WIDTH : Int), mathFloorDiv a2 (CHUNK_HEIGHT : Int),
           mathFloorDiv a3 (CHUNK_DEPTH : Int))) ∨
       ((mathFloorDiv (a1 - 1) (CHUNK_WIDTH : Int) ≠ b1 ∨
           mathFloorDiv a2 (CHUNK_HEIGHT : Int) ≠ b2 ∨
           mathFloorDiv a3 (CHUNK_DEPTH : Int) ≠ b3) ∧
         c1 = 0 ∧
         (s.chunks (mathFloorDiv (a1 - 1) (CHUNK_WIDTH : Int), mathFloorDiv a2 (CHUNK_HEIGHT : Int),
           mathFloorDiv a3 (CHUNK_DEPTH : Int))).isSome = true ∧
         k = (mathFloorDiv (a1 - 1) (CHUNK_WIDTH : Int), mathFloorDiv a2 (CHUNK_HEIGHT : Int),
           mathFloorDiv a3 (CHUNK_DEPTH : Int))) ∨
       ((mathFloorDiv a1 (CHUNK_WIDTH : Int) ≠ b1 ∨
           mathFloorDiv (a2 + 1) (CHUNK_HEIGHT : Int) ≠ b2 ∨
           mathFloorDiv a3 (CHUNK_DEPTH : Int) ≠ b3) ∧
         c2 = (CHUNK_HEIGHT : Int) - 1 ∧
         (s.chunks (mathFloorDiv a1 (CHUNK_WIDTH : Int), mathFloorDiv (a2 + 1) (CHUNK_HEIGHT : Int),
           mathFloorDiv a3 (CHUNK_DEPTH : Int))).isSome = true ∧
         k = (mathFloorDiv a1 (CHUNK_WIDTH : Int), mathFloorDiv (a2 + 1) (CHUNK_HEIGHT : Int),
           mathFloorDiv a3 (CHUNK_DEPTH : Int))) ∨
       ((mathFloorDiv a1 (CHUNK_WIDTH : Int) ≠ b1 ∨
           mathFloorDiv (a2 - 1) (CHUNK_HEIGHT : Int) ≠ b2 ∨
           mathFloorDiv a3 (CHUNK_DEPTH : Int) ≠ b3) ∧
         c2 = 0 ∧
         (s.chunks (mathFloorDiv a1 (CHUNK_WIDTH : Int), mathFloorDiv (a2 - 1) (CHUNK_HEIGHT : Int),
           mathFloorDiv a3 (CHUNK_DEPTH : Int))).isSome = true ∧
         k = (mathFloorDiv a1 (CHUNK_WIDTH : Int), mathFloorDiv (a2 - 1) (CHUNK_HEIGHT : Int),
           mathFloorDiv a3 (CHUNK_DEPTH : Int))) ∨
       ((mathFloorDiv a1 (CHUNK_WIDTH : Int) ≠ b1 ∨
           mathFloorDiv a2 (CHUNK_HEIGHT : Int) ≠ b2 ∨
           mathFloorDiv (a3 + 1) (CHUNK_DEPTH : Int) ≠ b3) ∧
         c3 = (CHUNK_DEPTH : Int) - 1 ∧
         (s.chunks (mathFloorDiv a1 (CHUNK_WIDTH : Int), mathFloorDiv a2 (CHUNK_HEIGHT : Int),
           mathFloorDiv (a3 + 1) (CHUNK_DEPTH : Int))).isSome = true ∧
         k = (mathFloorDiv a1 (CHUNK_WIDTH : Int), mathFloorDiv a2 (CHUNK_HEIGHT : Int),
           mathFloorDiv (a3 + 1) (CHUNK_DEPTH : Int))) ∨
       ((mathFloorDiv a1 (CHUNK_WIDTH : Int) ≠ b1 ∨
           mathFloorDiv a2 (CHUNK_HEIGHT : Int) ≠ b2 ∨
           mathFloorDiv (a3 - 1) (CHUNK_DEPTH : Int) ≠ b3) ∧
         c3 = 0 ∧
         (s.chunks (mathFloorDiv a1 (CHUNK_WIDTH : Int), mathFloorDiv a2 (CHUNK_HEIGHT : Int),
           mathFloorDiv (a3 - 1) (CHUNK_DEPTH : Int))).isSome = true ∧
         k = (mathFloorDiv a1 (CHUNK_WIDTH : Int), mathFloorDiv a2 (CHUNK_HEIGHT : Int),
           mathFloorDiv (a3 - 1) (CHUNK_DEPTH : Int)))) := by
  unfold World.checkAndMarkNeighborsDirty
  split
  · rename_i hbd
    push_neg at hbd
    constructor
    · intro h
      exact Or.inl h
    · intro h
      rcases h with h | h | h | h | h | h | h
      · exact h
      · exact absurd h.2.1 hbd.1.2
      · exact absurd h.2.1 hbd.1.1
      · exact absurd h.2.1 hbd.2.1.2
      · exact absurd h.2.1 hbd.2.1.1
      · exact absurd h.2.1 hbd.2.2.2
      · exact absurd h.2.1 hbd.2.2.1
  · rename_i hbd
    simp only [neighborOffsets, List.foldl_cons, List.foldl_nil, markNeighborStep_eq,
      apply_ite WorldState.chunks, apply_ite WorldState.dirtyChunks, apply_ite WorldState.gen,
      ite_self, ite_apply, mem_ite_insert]
    norm_num
    simp only [sub_eq_add_neg]
    constructor
    · intro h
      rcases h with ⟨⟨hA, hB, hC⟩, hD⟩ | ⟨⟨hA, hB, hC⟩, hD⟩ | ⟨⟨hA, hB, hC⟩, hD⟩ |
        ⟨⟨hA, hB, hC⟩, hD⟩ | ⟨⟨hA, hB, hC⟩, hD⟩ | ⟨⟨hA, hB, hC⟩, hD⟩ | h
      · exact Or.inr (Or.inr (Or.inr (Or.inr (Or.inr (Or.inr ⟨hA, hB, hC, hD⟩)))))
      · exact Or.inr (Or.inr (Or.inr (Or.inr (Or.inr (Or.inl ⟨hA, hB, hC, hD⟩)))))
      · exact Or.inr (Or.inr (Or.inr (Or.inr (Or.inl ⟨hA, hB, hC, hD⟩))))
      · exact Or.inr (Or.inr (Or.inr (Or.inl ⟨hA, hB, hC, hD⟩)))
      · exact Or.inr (Or.inr (Or.inl ⟨hA, hB, hC, hD⟩))
      · exact Or.inr (Or.inl ⟨hA, hB, hC, hD⟩)
      · exact Or.inl h
    · intro h
      rcases h with h | ⟨hA, hB, hC, hD⟩ | ⟨hA, hB, hC, hD⟩ | ⟨hA, hB, hC, hD⟩ |
        ⟨hA, hB, hC, hD⟩ | ⟨hA, hB, hC, hD⟩ | ⟨hA, hB, hC, hD⟩
      · exact Or.inr (Or.inr (Or.inr (Or.inr (Or.inr (Or.inr h)))))
      · exact Or.inr (Or.inr (Or.inr (Or.inr (Or.inr (Or.inl ⟨⟨hA, hB, hC⟩, hD⟩)))))
      · exact Or.inr (Or.inr (Or.inr (Or.inr (Or.inl ⟨⟨hA, hB, hC⟩, hD⟩))))
      · exact Or.inr (Or.inr (Or.inr (Or.inl ⟨⟨hA, hB, hC⟩, hD⟩)))
      · exact Or.inr (Or.inr (Or.inl ⟨⟨hA, hB, hC⟩, hD⟩))
      · exact Or.inr (Or.inl ⟨⟨hA, hB, hC⟩, hD⟩)
      · exact Or.inl ⟨⟨hA, hB, hC⟩, hD⟩

theorem isSome_update (f : Int × Int × Int → Option Chunk) (a : Int × Int × Int) (b : Chunk)
    (x : Int × Int × Int) (h : (f a).isSome = true) :
    ((Function.update f a (some b)) x).isSome = (f x).isSome := by
  rcases eq_or_ne x a with hx | hx
  · subst hx
    simp [Function.update_same, h]
  · rw [Function.update_noteq hx]

theorem prodTriple_ne_iff (p q r p' q' r' : Int) :
    ((p, q, r) ≠ (p', q', r')) ↔ (p ≠ p' ∨ q ≠ q' ∨ r ≠ r') := by
  simp only [ne_eq, Prod.mk.injEq, not_and_or]

set_option maxHeartbeats 1000000 in
/-- Claim C2: after `World.setBlock` performs a real change (the owning chunk is
loaded and `Chunk.setBlock` reports changed = true), the owner's chunk
coordinate is in the resulting dirty set; a chunk coordinate is in the
resulting dirty set iff it was already dirty, is the owner, or satisfies
`specNeighborDirty` (for one of the 6 axis directions, the local coordinate
equals 0 or dimension-1 toward that direction, the adjacent world coordinate
lies in a different chunk coordinate, and that neighbor chunk is loaded); and
an edit at a strictly interior local coordinate dirties only the owner. -/
theorem claim_C2 (s : WorldState) (worldX worldY worldZ : Int) (blockId : Nat) (chunk : Chunk)
    (hc : s.chunks (mathFloorDiv worldX 16, mathFloorDiv worldY 256, mathFloorDiv worldZ 16) =
      some chunk)
    (hr : (Chunk.setBlock chunk (euclideanModulo worldX 16) (euclideanModulo worldY 256)
      (euclideanModulo worldZ 16) blockId).1 = true) :
    ((mathFloorDiv worldX 16, mathFloorDiv worldY 256, mathFloorDiv worldZ 16) ∈
        (World.setBlock s worldX worldY worldZ blockId).dirtyChunks) ∧
    (∀ k : Int × Int × Int,
      k ∈ (World.setBlock s worldX worldY worldZ blockId).dirtyChunks ↔
        (k ∈ s.dirtyChunks ∨
         k = (mathFloorDiv worldX 16, mathFloorDiv worldY 256, mathFloorDiv worldZ 16) ∨
         specNeighborDirty s worldX worldY worldZ k)) ∧
    ((euclideanModulo worldX 16 ≠ 0 ∧ euclideanModulo worldX 16 ≠ 15 ∧
      euclideanModulo worldY 256 ≠ 0 ∧ euclideanModulo worldY 256 ≠ 255 ∧
      euclideanModulo worldZ 16 ≠ 0 ∧ euclideanModulo worldZ 16 ≠ 15) →
      (World.setBlock s worldX worldY worldZ blockId).dirtyChunks =
        insert (mathFloorDiv worldX 16, mathFloorDiv worldY 256, mathFloorDiv worldZ 16)
          s.dirtyChunks) := by
  have hupd : ∀ p : Int × Int × Int,
      ((Function.update s.chunks
        (mathFloorDiv worldX 16, mathFloorDiv worldY 256, mathFloorDiv worldZ 16)
        (some (Chunk.setBlock chunk (euclideanModulo worldX 16)
          (euclideanModulo worldY 256)
          (euclideanModulo worldZ 16) blockId).2)) p).isSome =
      (s.chunks p).isSome := by
    intro p
    refine isSome_update _ _ _ _ ?_
    rw [hc]
    rfl
  have hmem : ∀ k : Int × Int × Int,
      k ∈ (World.setBlock s worldX worldY worldZ blockId).dirtyChunks ↔
        (k ∈ s.dirtyChunks ∨
         k = (mathFloorDiv worldX 16, mathFloorDiv worldY 256, mathFloorDiv worldZ 16) ∨
         specNeighborDirty s worldX worldY worldZ k) := by
    intro k
    rw [setBlock_of_changed s worldX worldY worldZ blockId chunk hc hr]
    rw [mem_checkAndMark]
    dsimp only
    simp only [chunkWidthInt, chunkHeightInt, chunkDepthInt]
    simp only [hupd, Finset.mem_insert, specNeighborDirty, prodTriple_ne_iff]
    norm_num
    constructor
    · intro h
      rcases h with (h | h) | ⟨hA, hB, hC, hD⟩ | ⟨hA, hB, hC, hD⟩ | ⟨hA, hB, hC, hD⟩ |
        ⟨hA, hB, hC, hD⟩ | ⟨hA, hB, hC, hD⟩ | ⟨hA, hB, hC, hD⟩
      · exact Or.inr (Or.inl h)
      · exact Or.inl h
      · exact Or.inr (Or.inr (Or.inl ⟨hB, hA, hC, hD⟩))
      · exact Or.inr (Or.inr (Or.inr (Or.inl ⟨hB, hA, hC, hD⟩)))
      · exact Or.inr (Or.inr (Or.inr (Or.inr (Or.inl ⟨hB, hA, hC, hD⟩))))
      · exact Or.inr (Or.inr (Or.inr (Or.inr (Or.inr (Or.inl ⟨hB, hA, hC, hD⟩)))))
      · exact Or.inr (Or.inr (Or.inr (Or.inr (Or.inr (Or.inr (Or.inl ⟨hB, hA, hC, hD⟩))))))
      · exact Or.inr (Or.inr (Or.inr (Or.inr (Or.inr (Or.inr (Or.inr ⟨hB, hA, hC, hD⟩))))))
    · intro h
      rcases h with h | h | ⟨hA, hB, hC, hD⟩ | ⟨hA, hB, hC, hD⟩ | ⟨hA, hB, hC, hD⟩ |
        ⟨hA, hB, hC, hD⟩ | ⟨hA, hB, hC, hD⟩ | ⟨hA, hB, hC, hD⟩
      · exact Or.inl (Or.inr h)
      · exact Or.inl (Or.inl h)
      · exact Or.inr (Or.inl ⟨hB, hA, hC, hD⟩)
      · exact Or.inr (Or.inr (Or.inl ⟨hB, hA, hC, hD⟩))
      · exact Or.inr (Or.inr (Or.inr (Or.inl ⟨hB, hA, hC, hD⟩)))
      · exact Or.inr (Or.inr (Or.inr (Or.inr (Or.inl ⟨hB, hA, hC, hD⟩))))
      · exact Or.inr (Or.inr (Or.inr (Or.inr (Or.inr (Or.inl ⟨hB, hA, hC, hD⟩)))))
      · exact Or.inr (Or.inr (Or.inr (Or.inr (Or.inr (Or.inr ⟨hB, hA, hC, hD⟩)))))
  refine ⟨(hmem _).mpr (Or.inr (Or.inl rfl)), hmem, ?_⟩
  intro hint
  apply Finset.ext
  intro k
  rw [hmem k, Finset.mem_insert]
  constructor
  · rintro (h | h | h)
    · exact Or.inr h
    · exact Or.inl h
    · exfalso
      rcases hint with ⟨h1, h2, h3, h4, h5, h6⟩
      simp only [specNeighborDirty] at h
      rcases h with ⟨hA, _⟩ | ⟨hA, _⟩ | ⟨hA, _⟩ | ⟨hA, _⟩ | ⟨hA, _⟩ | ⟨hA, _⟩
      · exact h2 hA
      · exact h1 hA
      · exact h4 hA
      · exact h3 hA
      · exact h6 hA
      · exact h5 hA
  · rintro (h | h)
    · exact Or.inr (Or.inl h)
    · exact Or.inl h

theorem claim_C2_witness :
    w2.chunks (mathFloorDiv 5 16, mathFloorDiv 5 256, mathFloorDiv 5 16) = some c2chunk ∧
    (Chunk.setBlock c2chunk (euclideanModulo 5 16) (euclideanModulo 5 256)
      (euclideanModulo 5 16) 1).1 = true ∧
    (mathFloorDiv 5 16, mathFloorDiv 5 256, mathFloorDiv 5 16) ∈
      (World.setBlock w2 5 5 5 1).dirtyChunks := by
  have hc : w2.chunks (mathFloorDiv 5 16, mathFloorDiv 5 256, mathFloorDiv 5 16) =
      some c2chunk := by
    rw [mathFloorDiv_sixteen, mathFloorDiv_two56]
    norm_num [w2]
  have hr : (Chunk.setBlock c2chunk (euclideanModulo 5 16) (euclideanModulo 5 256)
      (euclideanModulo 5 16) 1).1 = true := by
    rw [euclideanModulo_sixteen, euclideanModulo_two56]
    decide
  exact ⟨hc, hr, (claim_C2 w2 5 5 5 1 c2chunk hc hr).1⟩
